import Mathlib

/-
Verification development for the batch evaluation pipeline of the
pain-narratives application.

Shallow embedding of:
  * src/pain_narratives/core/questionnaire_runner.py
      (QuestionnaireResult, extract_json_from_text,
       parse_questionnaire_response, run_questionnaire, and the score
       calculators calculate_pcs_total_score, calculate_pcs_subscales,
       calculate_bpi_is_total_score, calculate_bpi_is_subscales,
       calculate_tsk_11sv_total_score)
  * src/pain_narratives/batch/processor.py
      (BatchConfig, BatchProgress, NarrativeEvaluationResult,
       _run_questionnaire_with_retry, _save_questionnaire_result,
       process_single_narrative, _save_checkpoint, _load_checkpoint,
       run_batch, run_batch_with_existing_narratives)

Modelling conventions:
  * Python values decoded from JSON are modelled by the inductive `PyJson`
    (JSON numbers restricted to integers, which is all that the
    questionnaire payloads of this pipeline use).  A Python dict is an association list with
    the first matching key winning (Python dicts have unique keys).
  * Python exceptions are modelled with `Except String`: a thrown exception
    is `Except.error msg`.  Functions that the Python source makes total by
    catching all exceptions are total Lean functions.
  * The `json.dumps` / `json.loads` pair of the Python standard library and the
    filesystem are external collaborators: the checkpoint file is modelled
    as holding the JSON document itself (`Option PyJson`), with the string
    encoding layer abstracted away.
  * The model client, the prompt resolver and the database are external
    collaborators: their behaviour enters as explicit parameters
    (per-call outcomes, environments), and database writes are recorded as
    `DbWrite` events.
  * `time.sleep`, wall-clock timestamps and log statements have no
    observable effect on the modelled state and are omitted; timestamps
    are threaded as opaque strings.
  * Python names with a leading underscore (`_save_checkpoint`, ...) drop
    the underscore here.
-/

/-- JSON-decoded Python value (numbers restricted to integers, which is all
the questionnaire payloads of this pipeline contain). -/
inductive PyJson where
  | null : PyJson
  | bool (b : Bool) : PyJson
  | num (n : Int) : PyJson
  | str (s : String) : PyJson
  | arr (xs : List PyJson) : PyJson
  | obj (kvs : List (String × PyJson)) : PyJson

/-- Python dict lookup (`d[k]` / membership): first matching key wins;
Python dicts have unique keys. -/
def pyLookup : List (String × PyJson) → String → Option PyJson
  | [], _ => none
  | kv :: rest, k => if kv.1 = k then some kv.2 else pyLookup rest k

/-- Python `j.get(k)` on a JSON object; `none` when `j` is not an object
(that case raises in Python, callers model it explicitly). -/
def pyGet (j : PyJson) (k : String) : Option PyJson :=
  match j with
  | .obj kvs => pyLookup kvs k
  | _ => none

/-- The integer carried by a JSON number (0 otherwise); statement helper. -/
def pyNumRaw : PyJson → Int
  | .num n => n
  | _ => 0

/-- Whether a JSON value is a number; statement helper. -/
def isNum : PyJson → Bool
  | .num _ => true
  | _ => false

/- ===== Python string operations (code-point based, kernel-reducible) ===== -/

/-- Python whitespace as recognized by `str.strip()`. -/
def pyIsSpace (c : Char) : Bool :=
  c = ' ' || c = '\t' || c = '\n' || c = '\r' || c = '\x0b' || c = '\x0c'

/-- Python `s.strip()`. -/
def pyStrip (s : String) : String :=
  String.mk (((s.data.dropWhile pyIsSpace).reverse.dropWhile pyIsSpace).reverse)

/-- Python `s.startswith(p)`. -/
def pyStartsWith (s p : String) : Bool :=
  p.data.isPrefixOf s.data

/-- Python `s.endswith(p)`. -/
def pyEndsWith (s p : String) : Bool :=
  p.data.reverse.isPrefixOf s.data.reverse

/-- Python `s[n:]`. -/
def pyDrop (s : String) (n : Nat) : String :=
  String.mk (s.data.drop n)

/-- Python `s[:-n]`. -/
def pyDropRight (s : String) (n : Nat) : String :=
  String.mk (s.data.take (s.data.length - n))

/-- Worker for `pyReplace`; the fuel is the input length (each step consumes
at least one character for a non-empty pattern). -/
def pyReplaceAux : Nat → List Char → List Char → List Char → List Char
  | 0, _, _, _ => []
  | _ + 1, [], _, _ => []
  | fuel + 1, c :: rest, pat, rep =>
    if pat.isPrefixOf (c :: rest) then
      rep ++ pyReplaceAux fuel ((c :: rest).drop pat.length) pat rep
    else c :: pyReplaceAux fuel rest pat rep

/-- Python `s.replace(pat, rep)` for a non-empty pattern: non-overlapping
left-to-right replacement of every occurrence. -/
def pyReplace (s pat rep : String) : String :=
  String.mk (pyReplaceAux s.data.length s.data pat.data rep.data)

/-- Python `int(x)` coercion as used by `calculate_pcs_total_score` /
`calculate_pcs_subscales` (`int()` accepts ints, bools and numeric
strings and raises otherwise). -/
def pyInt : PyJson → Except String Int
  | .num n => .ok n
  | .bool b => .ok (if b then 1 else 0)
  | .str s =>
    match (pyStrip s).toInt? with
    | some n => .ok n
    | none => .error "ValueError: invalid literal for int"
  | _ => .error "TypeError: int argument"

/-- Numeric coercion performed by Python `sum` / `+` (ints and bools add,
anything else raises TypeError). -/
def pyNumVal : PyJson → Except String Int
  | .num n => .ok n
  | .bool b => .ok (if b then 1 else 0)
  | _ => .error "TypeError: unsupported operand type for +"

/-- Left-to-right Python `sum(f(v) for v in vs)` where `f` may raise. -/
def pySumWith (f : PyJson → Except String Int) : List PyJson → Int → Except String Int
  | [], acc => .ok acc
  | v :: vs, acc =>
    match f v with
    | .error e => .error e
    | .ok n => pySumWith f vs (acc + n)

/- ===== questionnaire_runner.py : model client response shape ===== -/

/-- The `message` object of one response choice
(`{"message": {"content": ...}}`). -/
structure MessageObj where
  content : Option String

/-- One element of the `choices` list of the response. -/
structure ResponseChoice where
  message : Option MessageObj

/-- Response dictionary of the model client, restricted to the keys the
pipeline reads (`response.get("choices", [{}])[0]...`). -/
structure ModelResponse where
  choices : Option (List ResponseChoice)

/-- Content extraction of `run_questionnaire`:
`response.get("choices", [{}])[0].get("message", {}).get("content", "").strip()`.
Indexing `[0]` into an empty `choices` list raises IndexError. -/
def extractContent (resp : ModelResponse) : Except String String :=
  match resp.choices.getD [{ message := none }] with
  | [] => .error "IndexError: list index out of range"
  | c :: _ => .ok (pyStrip ((c.message.getD { content := none }).content.getD ""))

/- ===== questionnaire_runner.py : QuestionnaireResult ===== -/

/-- Container for questionnaire evaluation results (dataclass
`QuestionnaireResult`); `messages` is the list of (role, content) pairs. -/
structure QuestionnaireResult where
  questionnaire_type : String
  success : Bool
  data : PyJson
  raw_response : ModelResponse
  messages : List (String × String)
  error : Option String := none

/-- The `scores` property: `self.data.get("scores", {})`; `.get` on a
non-dict `data` raises AttributeError. -/
def QuestionnaireResult.scoresGet (r : QuestionnaireResult) : Except String PyJson :=
  match r.data with
  | .obj kvs => .ok ((pyLookup kvs "scores").getD (.obj []))
  | _ => .error "AttributeError: get"

/-- The `responses` property (`self.data.get("responses", [])`), fused with
the list iteration the score calculators perform on it: a non-dict `data`
raises AttributeError, iterating a non-list value raises TypeError. -/
def QuestionnaireResult.responsesGet (r : QuestionnaireResult) : Except String (List PyJson) :=
  match r.data with
  | .obj kvs =>
    match (pyLookup kvs "responses").getD (.arr []) with
    | .arr xs => .ok xs
    | _ => .error "TypeError: not iterable"
  | _ => .error "AttributeError: get"

/- ===== questionnaire_runner.py : JSON extraction and parsing ===== -/

/-- Python `text.find(c)` restricted to a single character (index of first
occurrence). -/
def pyFindChar (s : String) (c : Char) : Option Nat :=
  s.toList.findIdx? (fun ch => ch = c)

/-- Python `text.rfind(c)` restricted to a single character (index of last
occurrence). -/
def pyRFindChar (s : String) (c : Char) : Option Nat :=
  match s.toList.reverse.findIdx? (fun ch => ch = c) with
  | some j => some (s.toList.length - 1 - j)
  | none => none

/-- Python slice `s[a:b]` (by code point). -/
def pySlice (s : String) (a b : Nat) : String :=
  String.mk ((s.toList.drop a).take (b - a))

/-- Embedding of `extract_json_from_text`: strip markdown code fences and keep the
outermost brace-delimited span. -/
def extract_json_from_text (text : String) : String :=
  let text := pyStrip text
  let text :=
    if pyStartsWith text "```json" then pyDrop text 7
    else if pyStartsWith text "```" then pyDrop text 3
    else text
  let text := if pyEndsWith text "```" then pyDropRight text 3 else text
  let text := pyStrip text
  let text :=
    match pyFindChar text '\x7b', pyRFindChar text '\x7d' with
    | some s, some e => if s < e then pySlice text s (e + 1) else text
    | _, _ => text
  pyStrip text

/-- Embedding of `parse_questionnaire_response(content, questionnaire_type)`, returning
`(success, data, error)`.  `jsonLoads` is the external `json.loads`
collaborator (`Except.error` is its `JSONDecodeError` message).  The
Python field-name quotes inside the error texts are dropped. -/
def parse_questionnaire_response (jsonLoads : String → Except String PyJson)
    (content : String) (questionnaire_type : String) :
    Bool × PyJson × Option String :=
  if content = "" then (false, .obj [], some "Empty response from API")
  else
    match jsonLoads (extract_json_from_text content) with
    | .error e => (false, .obj [], some ("Could not parse JSON response: " ++ e))
    | .ok data =>
      match data with
      | .obj kvs =>
        if questionnaire_type = "PCS" then
          match pyLookup kvs "scores" with
          | some (.obj _) => (true, data, none)
          | some _ =>
            (false, .obj [],
             some ("Invalid " ++ questionnaire_type ++ " response: scores should be an object"))
          | none =>
            (false, .obj [],
             some ("Invalid " ++ questionnaire_type ++ " response: missing scores field"))
        else
          match pyLookup kvs "responses" with
          | some (.arr _) => (true, data, none)
          | some _ =>
            (false, .obj [],
             some ("Invalid " ++ questionnaire_type ++ " response: responses should be an array"))
          | none =>
            (false, .obj [],
             some ("Invalid " ++ questionnaire_type ++ " response: missing responses field"))
      | _ =>
        (false, .obj [],
         some ("Invalid " ++ questionnaire_type ++ " response: expected JSON object"))

/- ===== questionnaire_runner.py : run_questionnaire ===== -/

/-- The two-message conversation built by `run_questionnaire`; the
narrative is substituted by literal substring replacement of the
brace-delimited narrative token, never by format-string expansion. -/
def buildMessages (system_role instructions narrative : String) : List (String × String) :=
  [("system", system_role), ("user", pyReplace instructions "\x7bnarrative\x7d" narrative)]

/-- Embedding of `run_questionnaire` with the prompts supplied by the caller (as the
batch processor does).  `callOutcome` is the outcome of
`openai_client.create_completion` (`Except.error` = transport exception);
the whole call/extract/parse phase sits in a `try` whose `except` returns
a failed result with `raw_response = {}`, so the function never raises. -/
def run_questionnaire (narrative questionnaire_type : String)
    (system_role instructions : String)
    (callOutcome : Except String ModelResponse)
    (jsonLoads : String → Except String PyJson) : QuestionnaireResult :=
  let messages := buildMessages system_role instructions narrative
  match callOutcome with
  | .error e =>
    { questionnaire_type := questionnaire_type, success := false, data := .obj [],
      raw_response := { choices := none }, messages := messages, error := some e }
  | .ok response =>
    match extractContent response with
    | .error e =>
      { questionnaire_type := questionnaire_type, success := false, data := .obj [],
        raw_response := { choices := none }, messages := messages, error := some e }
    | .ok content =>
      if content = "" then
        { questionnaire_type := questionnaire_type, success := false, data := .obj [],
          raw_response := response, messages := messages,
          error := some "Model returned empty response" }
      else
        let parsed := parse_questionnaire_response jsonLoads content questionnaire_type
        { questionnaire_type := questionnaire_type, success := parsed.1, data := parsed.2.1,
          raw_response := response, messages := messages, error := parsed.2.2 }

/- ===== processor.py : _run_questionnaire_with_retry ===== -/

/-- The exception Python raises at `return result` when the local variable
`result` was never assigned (every attempt raised, or `max_retries = 0`). -/
def unboundLocalMsg : String :=
  "UnboundLocalError: local variable result referenced before assignment"

/-- Loop body of `_run_questionnaire_with_retry`.  `attempts` lists, in
order, the outcome of each of the `range(max_retries)` iteration calls
to `run_questionnaire` (`Except.error` = the call raised, caught by the
bare `except`).  The accumulator is the current value of the Python local
`result` (assigned only when a call returns); the `Nat` counts how many
calls were made. -/
def retryLoopC : List (Except String QuestionnaireResult) → Option QuestionnaireResult → Nat →
    Except String QuestionnaireResult × Nat
  | [], some r, n => (.ok r, n)
  | [], none, n => (.error unboundLocalMsg, n)
  | .ok r :: rest, _, n =>
    if r.success then (.ok r, n + 1)
    else retryLoopC rest (some r) (n + 1)
  | .error _ :: rest, prev, n => retryLoopC rest prev (n + 1)

/-- Embedding of `_run_questionnaire_with_retry` together with the number of
`run_questionnaire` invocations it performed. -/
def run_questionnaire_with_retry_traced (attempts : List (Except String QuestionnaireResult)) :
    Except String QuestionnaireResult × Nat :=
  retryLoopC attempts none 0

/-- Embedding of `_run_questionnaire_with_retry`: value returned (or exception raised)
given the per-attempt outcomes; `attempts.length` is `max_retries`. -/
def run_questionnaire_with_retry (attempts : List (Except String QuestionnaireResult)) :
    Except String QuestionnaireResult :=
  (run_questionnaire_with_retry_traced attempts).1

/-- The value the Python local `result` holds after the loop, starting from
`prev`: the most recent attempt that returned (rather than raised). -/
def lastReturnedFrom (prev : Option QuestionnaireResult)
    (attempts : List (Except String QuestionnaireResult)) : Option QuestionnaireResult :=
  attempts.foldl
    (fun acc a =>
      match a with
      | .ok r => some r
      | .error _ => acc)
    prev

/-- The most recent attempt that returned a result, if any. -/
def lastReturned (attempts : List (Except String QuestionnaireResult)) :
    Option QuestionnaireResult :=
  lastReturnedFrom none attempts

/-- Embedding of `_run_questionnaire_with_retry` against a live model-client stub:
the i-th loop iteration calls `run_questionnaire` with the i-th call
outcome of the stub.  (`run_questionnaire` itself catches all exceptions, so
every attempt returns.) -/
def run_questionnaire_with_retry_model (narrative questionnaire_type : String)
    (system_role instructions : String)
    (jsonLoads : String → Except String PyJson)
    (calls : List (Except String ModelResponse)) :
    Except String QuestionnaireResult × Nat :=
  run_questionnaire_with_retry_traced
    (calls.map (fun c =>
      Except.ok (run_questionnaire narrative questionnaire_type system_role instructions c
        jsonLoads)))

/- ===== questionnaire_runner.py : score calculators ===== -/

/-- Embedding of `calculate_pcs_total_score`, that is
`sum(int(score) for score in scores.values())`;
`.values()` on a non-dict raises AttributeError. -/
def calculate_pcs_total_score (result : QuestionnaireResult) : Except String Int :=
  match result.scoresGet with
  | .error e => .error e
  | .ok (.obj kvs) => pySumWith pyInt (kvs.map Prod.snd) 0
  | .ok _ => .error "AttributeError: values"

/-- PCS rumination items (Q8-Q11). -/
def rumination_items : List String := ["8", "9", "10", "11"]

/-- PCS magnification items (Q6, Q7, Q13). -/
def magnification_items : List String := ["6", "7", "13"]

/-- PCS helplessness items (Q1-Q5, Q12). -/
def helplessness_items : List String := ["1", "2", "3", "4", "5", "12"]

/-- The thirteen PCS question-number keys. -/
def pcs_item_keys : List String :=
  ["1", "2", "3", "4", "5", "6", "7", "8", "9", "10", "11", "12", "13"]

/-- One summand of `sum_items`: `int(scores.get(item, 0))`. -/
def pyIntItem (kvs : List (String × PyJson)) (item : String) : Except String Int :=
  pyInt ((pyLookup kvs item).getD (.num 0))

/-- The nested helper `sum_items` of `calculate_pcs_subscales`:
`sum(int(scores.get(item, 0)) for item in items)`. -/
def sum_items (kvs : List (String × PyJson)) : List String → Int → Except String Int
  | [], acc => .ok acc
  | it :: its, acc =>
    match pyIntItem kvs it with
    | .error e => .error e
    | .ok n => sum_items kvs its (acc + n)

/-- Value of `int(scores.get(item, 0))` when it succeeds; statement helper. -/
def lookupNumD (kvs : List (String × PyJson)) (item : String) : Int :=
  pyNumRaw ((pyLookup kvs item).getD (.num 0))

/-- Result of `calculate_pcs_subscales`. -/
structure PcsSubscales where
  rumination : Int
  magnification : Int
  helplessness : Int
deriving DecidableEq

/-- Embedding of `calculate_pcs_subscales`: sums of the three fixed item sets, with
missing items defaulting to 0. -/
def calculate_pcs_subscales (result : QuestionnaireResult) : Except String PcsSubscales :=
  match result.scoresGet with
  | .error e => .error e
  | .ok (.obj kvs) =>
    match sum_items kvs rumination_items 0 with
    | .error e => .error e
    | .ok rum =>
      match sum_items kvs magnification_items 0 with
      | .error e => .error e
      | .ok mag =>
        match sum_items kvs helplessness_items 0 with
        | .error e => .error e
        | .ok help => .ok { rumination := rum, magnification := mag, helplessness := help }
  | .ok _ => .error "AttributeError: get"

/-- Summand loop of `calculate_bpi_is_total_score` /
`calculate_tsk_11sv_total_score`: `sum(r.get("value", 0) for r in responses)`;
`.get` on a non-dict element raises AttributeError. -/
def sumRespValues : List PyJson → Int → Except String Int
  | [], acc => .ok acc
  | r :: rs, acc =>
    match r with
    | .obj kvs =>
      match pyNumVal ((pyLookup kvs "value").getD (.num 0)) with
      | .error e => .error e
      | .ok n => sumRespValues rs (acc + n)
    | _ => .error "AttributeError: get"

/-- Embedding of `calculate_bpi_is_total_score`. -/
def calculate_bpi_is_total_score (result : QuestionnaireResult) : Except String Int :=
  match result.responsesGet with
  | .error e => .error e
  | .ok responses => sumRespValues responses 0

/-- Embedding of `calculate_tsk_11sv_total_score`. -/
def calculate_tsk_11sv_total_score (result : QuestionnaireResult) : Except String Int :=
  match result.responsesGet with
  | .error e => .error e
  | .ok responses => sumRespValues responses 0

/-- The six BPI-IS interference codes (Q1 group). -/
def interference_codes : List String :=
  ["BPI_Q1_1", "BPI_Q1_2", "BPI_Q1_3", "BPI_Q1_5", "BPI_Q1_6", "BPI_Q1_7"]

/-- The four BPI-IS intensity codes (Q2-Q5). -/
def intensity_codes : List String :=
  ["BPI_Q2_8", "BPI_Q3_9", "BPI_Q4_10", "BPI_Q5_11"]

/-- Hashability of a JSON-decoded Python value: `None`, booleans, numbers
and strings are hashable dict keys; lists and dicts are not. -/
def pyHashable : PyJson → Bool
  | .arr _ => false
  | .obj _ => false
  | _ => true

/-- The dict comprehension
`{r.get("code"): r.get("value", 0) for r in responses}` of
`calculate_bpi_is_subscales`, as an insertion-ordered association list
(later duplicates overwrite earlier ones, see `codeGetD`); a non-dict
element raises AttributeError, and inserting an unhashable code key (a
list or dict) raises TypeError. -/
def buildScoresByCode : List PyJson → List (PyJson × PyJson) → Except String (List (PyJson × PyJson))
  | [], acc => .ok acc
  | r :: rs, acc =>
    match r with
    | .obj kvs =>
      if pyHashable ((pyLookup kvs "code").getD .null) then
        buildScoresByCode rs
          (acc ++ [((pyLookup kvs "code").getD .null, (pyLookup kvs "value").getD (.num 0))])
      else .error "TypeError: unhashable type"
    | _ => .error "AttributeError: get"

/-- Lookup `scores_by_code.get(code, 0)`: last insertion wins (dict overwrite
semantics); only string keys can match the fixed string codes. -/
def codeGetD (sbc : List (PyJson × PyJson)) (code : String) : PyJson :=
  ((sbc.reverse.find?
      (fun kv =>
        match kv.1 with
        | .str s => s == code
        | _ => false)).map Prod.snd).getD (.num 0)

/-- Python3 `round(x, 2)` on an exact rational (round-half-to-even, the
binary floating-point representation error of the actual Python floats is
not modelled). -/
def pyRound0 (x : ℚ) : Int :=
  let f : Int := Int.floor x
  let frac : ℚ := x - (f : ℚ)
  if frac < 1 / 2 then f
  else if 1 / 2 < frac then f + 1
  else if f % 2 = 0 then f
  else f + 1

/-- Python `round(x, 2)`. -/
def pyRound2 (x : ℚ) : ℚ := (pyRound0 (x * 100) : ℚ) / 100

/-- Result of `calculate_bpi_is_subscales`. -/
structure BpiSubscales where
  interference_avg : ℚ
  intensity_avg : ℚ
  interference_total : Int
  intensity_total : Int
deriving DecidableEq

/-- Embedding of `calculate_bpi_is_subscales`: averages and totals of the two fixed code
groups; the value list of each group is built over the fixed code list (absent
codes default to 0), and the average falls back to 0 when the value list
is empty. -/
def calculate_bpi_is_subscales (result : QuestionnaireResult) : Except String BpiSubscales :=
  match result.responsesGet with
  | .error e => .error e
  | .ok responses =>
    match buildScoresByCode responses [] with
    | .error e => .error e
    | .ok sbc =>
      let interference_values := interference_codes.map (codeGetD sbc)
      match pySumWith pyNumVal interference_values 0 with
      | .error e => .error e
      | .ok itot =>
        let interference_avg : ℚ :=
          if interference_values.isEmpty then 0
          else (itot : ℚ) / (interference_values.length : ℚ)
        let intensity_values := intensity_codes.map (codeGetD sbc)
        match pySumWith pyNumVal intensity_values 0 with
        | .error e => .error e
        | .ok ntot =>
          let intensity_avg : ℚ :=
            if intensity_values.isEmpty then 0
            else (ntot : ℚ) / (intensity_values.length : ℚ)
          .ok { interference_avg := pyRound2 interference_avg,
                intensity_avg := pyRound2 intensity_avg,
                interference_total := itot, intensity_total := ntot }

/- ===== processor.py : configuration, progress, per-narrative result ===== -/

/-- Embedding of `BatchConfig` (floats modelled as exact rationals). -/
structure BatchConfig where
  model : String := "gpt-5-mini"
  temperature : ℚ := 0
  max_tokens : Nat := 8000
  delay_between_calls : ℚ := 1
  max_retries : Nat := 3
  retry_delay : ℚ := 5
  include_dimensions : Bool := true
  include_pcs : Bool := true
  include_bpi_is : Bool := true
  include_tsk_11sv : Bool := true
  checkpoint_file : Option String := none
  checkpoint_interval : Nat := 10

/-- Embedding of the `BatchProgress` counters (`start_time` and the derived wall-clock
properties are real-time quantities and are not modelled). -/
structure BatchProgress where
  total : Nat := 0
  processed : Nat := 0
  successful : Nat := 0
  failed : Nat := 0
  current_narrative_id : Option Int := none
deriving DecidableEq

/-- Embedding of the `NarrativeEvaluationResult` dataclass. -/
structure NarrativeEvaluationResult where
  narrative_id : Int
  narrative_text : String
  experiment_id : Option Int := none
  dimension_success : Bool := false
  dimension_result : PyJson := .obj []
  dimension_error : Option String := none
  pcs_result : Option QuestionnaireResult := none
  bpi_is_result : Option QuestionnaireResult := none
  tsk_11sv_result : Option QuestionnaireResult := none
  pcs_questionnaire_id : Option Int := none
  bpi_is_questionnaire_id : Option Int := none
  tsk_11sv_questionnaire_id : Option Int := none

/-- The truthiness test of the per-narrative success update in `run_batch`:
`result.dimension_success or (result.pcs_result and result.pcs_result.success)`. -/
def narrativeSucceeded (res : NarrativeEvaluationResult) : Bool :=
  res.dimension_success ||
    (match res.pcs_result with
     | some q => q.success
     | none => false)

/-- The progress update after a narrative completes
(`processed += 1`, then exactly one of `successful` / `failed`). -/
def updateProgressAfterNarrative (p : BatchProgress) (res : NarrativeEvaluationResult) :
    BatchProgress :=
  let p1 := { p with processed := p.processed + 1 }
  if narrativeSucceeded res then { p1 with successful := p1.successful + 1 }
  else { p1 with failed := p1.failed + 1 }

/-- The progress update of the per-narrative `except` branch
(`processed += 1; failed += 1`). -/
def updateProgressAfterException (p : BatchProgress) : BatchProgress :=
  { p with processed := p.processed + 1, failed := p.failed + 1 }

/- ===== processor.py : _save_questionnaire_result ===== -/

/-- Database writes issued by the batch processor, tagged with the fields
that distinguish them (payload contents are carried by the db
collaborator and not re-modelled). -/
inductive DbWrite where
  | questionnaireRow (questionnaire_name : String)
  | evaluationRow (result_type : String)
  | experimentStatus (succeeded : Bool) (parsed_answers : Bool)
deriving DecidableEq

/-- Embedding of `_save_questionnaire_result`: returns `None` immediately for an
unsuccessful result (issuing no write at all); otherwise writes the
questionnaire row, computes the per-type derived scores (whose
calculators may raise, aborting before the evaluation write), and writes
the evaluation row.  `questionnaire_id` models the id returned by the
database collaborator. -/
def save_questionnaire_result (result : QuestionnaireResult) (questionnaire_type : String)
    (questionnaire_id : Int) : Except String (Option Int × List DbWrite) :=
  if !result.success then .ok (none, [])
  else
    let w1 : List DbWrite := [.questionnaireRow questionnaire_type]
    if questionnaire_type = "PCS" then
      match calculate_pcs_total_score result with
      | .error e => .error e
      | .ok _ =>
        match calculate_pcs_subscales result with
        | .error e => .error e
        | .ok _ => .ok (some questionnaire_id, w1 ++ [.evaluationRow questionnaire_type])
    else if questionnaire_type = "BPI-IS" then
      match calculate_bpi_is_total_score result with
      | .error e => .error e
      | .ok _ =>
        match calculate_bpi_is_subscales result with
        | .error e => .error e
        | .ok _ => .ok (some questionnaire_id, w1 ++ [.evaluationRow questionnaire_type])
    else if questionnaire_type = "TSK-11SV" then
      match calculate_tsk_11sv_total_score result with
      | .error e => .error e
      | .ok _ => .ok (some questionnaire_id, w1 ++ [.evaluationRow questionnaire_type])
    else .ok (some questionnaire_id, w1 ++ [.evaluationRow questionnaire_type])

/- ===== processor.py : process_single_narrative ===== -/

/-- The `"error" not in dim_result` key test on the parsed dimension payload. -/
def hasErrorKey : PyJson → Bool
  | .obj kvs => (pyLookup kvs "error").isSome
  | _ => false

/-- Per-narrative environment: the outcome of `_run_dimension_evaluation`
(`Except.error` = it raised) and the `QuestionnaireResult` each
`_run_questionnaire_with_retry` call returns (the behaviour of the retry
wrapper itself is proved separately over `run_questionnaire_with_retry`). -/
structure SingleNarrativeEnv where
  dimOutcome : Except String PyJson
  pcsResult : QuestionnaireResult
  bpiResult : QuestionnaireResult
  tskResult : QuestionnaireResult

/-- One questionnaire stage of `process_single_narrative`: when included,
run the retry wrapper (outcome supplied by the environment) and persist
through `_save_questionnaire_result`; a skipped stage is omitted
entirely. -/
def runStage (included : Bool) (result : QuestionnaireResult) (questionnaire_type : String)
    (questionnaire_id : Int) :
    Except String (Option QuestionnaireResult × Option Int × List DbWrite) :=
  if included then
    match save_questionnaire_result result questionnaire_type questionnaire_id with
    | .error e => .error e
    | .ok (qid, ws) => .ok (some result, qid, ws)
  else .ok (none, none, [])

/-- Embedding of `process_single_narrative`: dimension evaluation (its exceptions are
caught per-stage and recorded in `dimension_error`), then the PCS,
BPI-IS and TSK-11SV stages in order, each independently toggled by the
config; uncaught exceptions from the persistence helper propagate.
The audit `save_request_response` write inside the dimension call and the
`sleep` throttles are not modelled. -/
def process_single_narrative (cfg : BatchConfig) (env : SingleNarrativeEnv)
    (narrative_id : Int) (narrative_text : String) (experiment_id : Int) :
    Except String (NarrativeEvaluationResult × List DbWrite) :=
  let base : NarrativeEvaluationResult :=
    { narrative_id := narrative_id, narrative_text := narrative_text,
      experiment_id := some experiment_id }
  let step1 : NarrativeEvaluationResult × List DbWrite :=
    if cfg.include_dimensions then
      match env.dimOutcome with
      | .ok dim =>
        ({ base with dimension_success := !hasErrorKey dim, dimension_result := dim },
         [DbWrite.evaluationRow "dimensions",
          DbWrite.experimentStatus (!hasErrorKey dim) (!hasErrorKey dim)])
      | .error e => ({ base with dimension_error := some e }, [])
    else (base, [])
  match runStage cfg.include_pcs env.pcsResult "PCS" 1 with
  | .error e => .error e
  | .ok (pcsRes, pcsId, w2) =>
    match runStage cfg.include_bpi_is env.bpiResult "BPI-IS" 2 with
    | .error e => .error e
    | .ok (bpiRes, bpiId, w3) =>
      match runStage cfg.include_tsk_11sv env.tskResult "TSK-11SV" 3 with
      | .error e => .error e
      | .ok (tskRes, tskId, w4) =>
        .ok ({ step1.1 with
                pcs_result := pcsRes, pcs_questionnaire_id := pcsId,
                bpi_is_result := bpiRes, bpi_is_questionnaire_id := bpiId,
                tsk_11sv_result := tskRes, tsk_11sv_questionnaire_id := tskId },
             step1.2 ++ w2 ++ w3 ++ w4)

/- ===== processor.py : checkpointing ===== -/

/-- The checkpoint JSON document built by `_save_checkpoint`. -/
def checkpointJson (progress : BatchProgress) (processed_ids : List Int) (group_id : Int)
    (timestamp : String) : PyJson :=
  .obj [("processed_ids", .arr (processed_ids.map PyJson.num)),
        ("group_id", .num group_id),
        ("timestamp", .str timestamp),
        ("progress", .obj [("total", .num (progress.total : Int)),
                           ("processed", .num (progress.processed : Int)),
                           ("successful", .num (progress.successful : Int)),
                           ("failed", .num (progress.failed : Int))])]

/-- Embedding of `_save_checkpoint`: no-op when no checkpoint file is configured,
otherwise a full-file overwrite with the serialized record (the
`json.dumps` string layer is abstracted as storing the document). -/
def save_checkpoint (checkpoint_file : Option String) (progress : BatchProgress)
    (processed_ids : List Int) (group_id : Int) (timestamp : String)
    (file : Option PyJson) : Option PyJson :=
  match checkpoint_file with
  | none => file
  | some _ => some (checkpointJson progress processed_ids group_id timestamp)

/-- Embedding of `_load_checkpoint`: `{}` when no checkpoint file is configured or the
file does not exist, otherwise the parsed document (the `json.loads`
string layer is abstracted as reading the stored document). -/
def load_checkpoint (checkpoint_file : Option String) (file : Option PyJson) : PyJson :=
  match checkpoint_file with
  | none => .obj []
  | some _ =>
    match file with
    | none => .obj []
    | some j => j

/- ===== processor.py : run_batch ===== -/

/-- The fields of the loaded checkpoint as `run_batch` reads them
(`checkpoint.get("processed_ids", [])`, `checkpoint.get("group_id")`,
and the `progress` snapshot that is stored but never read back). -/
structure CheckpointRec where
  processed_ids : List Int
  group_id : Int
  progress : BatchProgress

/-- Observable external effects of the batch loop: each model-client
invocation, tagged with the key of the narrative it was made for. -/
inductive BatchEvent where
  | modelCall (idx : Int)
deriving DecidableEq

/-- What one loop iteration does for a narrative key, as determined by the
external collaborators: `fail n` = `create_narrative_record` /
`register_new_experiment` / `process_single_narrative` raised after `n`
model-client calls (the per-narrative `except` branch runs); `done n res`
= `process_single_narrative` returned `res` after `n` model-client
calls. -/
inductive NarrOutcome where
  | fail (modelCalls : Nat)
  | done (modelCalls : Nat) (res : NarrativeEvaluationResult)

/-- Mutable state of one `run_batch` execution. `initProgress` records the
`BatchProgress` the run was initialized with and is never modified by the
loop. -/
structure BatchState where
  initProgress : BatchProgress
  progress : BatchProgress
  processed_ids : List Int
  events : List BatchEvent
  results : List NarrativeEvaluationResult
  checkpointFile : Option PyJson

/-- Static context of one `run_batch` execution. -/
structure BatchCtx where
  cfg : BatchConfig
  env : Int → NarrOutcome
  group_id : Int
  timestamp : String

/-- One iteration of the `run_batch` loop over a narrative key `idx`:
skip when `idx` is already in `processed_ids`; otherwise set
`current_narrative_id`, run the narrative, append `idx` to
`processed_ids` in both the success and the `except` branch, update the
progress counters, and in the success branch save a checkpoint every
`checkpoint_interval` processed narratives. -/
def batchStep (ctx : BatchCtx) (st : BatchState) (idx : Int) : BatchState :=
  if idx ∈ st.processed_ids then st
  else
    let prog := { st.progress with current_narrative_id := some idx }
    match ctx.env idx with
    | .fail n =>
      { st with
        progress := updateProgressAfterException prog,
        processed_ids := st.processed_ids ++ [idx],
        events := st.events ++ List.replicate n (BatchEvent.modelCall idx) }
    | .done n res =>
      let prog2 := updateProgressAfterNarrative prog res
      let pids := st.processed_ids ++ [idx]
      { st with
        progress := prog2,
        processed_ids := pids,
        results := st.results ++ [res],
        events := st.events ++ List.replicate n (BatchEvent.modelCall idx),
        checkpointFile :=
          if prog2.processed % ctx.cfg.checkpoint_interval = 0 then
            save_checkpoint ctx.cfg.checkpoint_file prog2 pids ctx.group_id ctx.timestamp
              st.checkpointFile
          else st.checkpointFile }

/-- The `for idx, row in narratives_df.iterrows()` loop. -/
def runBatchLoop (ctx : BatchCtx) (rows : List Int) (st : BatchState) : BatchState :=
  rows.foldl (batchStep ctx) st

/-- Embedding of `run_batch` over the narrative keys of the input collection.
With `resume=True` and a non-empty checkpoint, `processed_ids` and
`group_id` come from the checkpoint; otherwise a fresh experiment group
`fresh_group_id` is created.  The `BatchProgress` is initialized with
`processed = len(processed_ids)` and `successful = failed = 0`, the loop
runs, and a final checkpoint is always saved.  (`update_experiment_group
(concluded=True)` and narrative/experiment row creation are database
collaborator calls subsumed in the `NarrOutcome` of each narrative.) -/
def run_batch (cfg : BatchConfig) (env : Int → NarrOutcome) (rows : List Int)
    (resume : Bool) (chk : Option CheckpointRec) (fresh_group_id : Int)
    (timestamp : String) : BatchState :=
  let initIds : List Int :=
    match chk, resume with
    | some c, true => c.processed_ids
    | _, _ => []
  let gid : Int :=
    match chk, resume with
    | some c, true => c.group_id
    | _, _ => fresh_group_id
  let prog0 : BatchProgress :=
    { total := rows.length, processed := initIds.length, successful := 0, failed := 0 }
  let ctx : BatchCtx := { cfg := cfg, env := env, group_id := gid, timestamp := timestamp }
  let st0 : BatchState :=
    { initProgress := prog0, progress := prog0, processed_ids := initIds,
      events := [], results := [], checkpointFile := none }
  let stF := runBatchLoop ctx rows st0
  { stF with
      checkpointFile :=
        save_checkpoint cfg.checkpoint_file stF.progress stF.processed_ids gid timestamp
          stF.checkpointFile }

/-- Embedding of `run_batch_with_existing_narratives`: identical orchestration over
pre-existing narrative ids (the loop keys on `narrative_id` instead of
the dataframe index, skips ids already in `processed_ids`, and tags each
experiment with `run_number`, which does not affect the modelled
state). -/
def run_batch_with_existing_narratives (cfg : BatchConfig) (env : Int → NarrOutcome)
    (narrative_ids : List Int) (run_number : Nat) (resume : Bool)
    (chk : Option CheckpointRec) (fresh_group_id : Int) (timestamp : String) : BatchState :=
  run_batch cfg env narrative_ids resume chk fresh_group_id timestamp

/- ===== Concrete inputs used by witnesses and counterexamples ===== -/

/-- A failed questionnaire result (as produced by a parse failure). -/
def c2failedResult : QuestionnaireResult :=
  { questionnaire_type := "PCS", success := false, data := .obj [],
    raw_response := { choices := none }, messages := [],
    error := some "Could not parse JSON response: Expecting value" }

/-- A model response whose content is not JSON. -/
def c5resp : ModelResponse :=
  { choices := some [{ message := some { content := some "not json" } }] }

/-- A `json.loads` stub that always fails with a decode error. -/
def c5loads : String → Except String PyJson :=
  fun _ => .error "Expecting value: line 1 column 1 (char 0)"

/-- Three stub calls that all return malformed content. -/
def c5calls : List (Except String ModelResponse) :=
  [.ok c5resp, .ok c5resp, .ok c5resp]

/-- A model response whose content is whitespace only. -/
def c8resp : ModelResponse :=
  { choices := some [{ message := some { content := some "   " } }] }

/-- A stub call outcome whose (non-empty) extracted content fails JSON
decoding; characterizes the "always returns malformed JSON" model client
of the retry-exhaustion property. -/
def malformedCall (jsonLoads : String → Except String PyJson)
    (c : Except String ModelResponse) : Prop :=
  ∃ resp s m, c = Except.ok resp ∧ extractContent resp = Except.ok s ∧ s ≠ "" ∧
    jsonLoads (extract_json_from_text s) = Except.error m

/-- A full 13-item PCS score mapping. -/
def c7kvs : List (String × PyJson) :=
  [("1", .num 2), ("2", .num 3), ("3", .num 1), ("4", .num 4), ("5", .num 0),
   ("6", .num 2), ("7", .num 3), ("8", .num 4), ("9", .num 1), ("10", .num 2),
   ("11", .num 3), ("12", .num 0), ("13", .num 1)]

/-- A successful PCS result carrying the 13-item score mapping. -/
def c7result : QuestionnaireResult :=
  { questionnaire_type := "PCS", success := true,
    data := .obj [("scores", .obj c7kvs)],
    raw_response := { choices := none }, messages := [], error := none }

/-- A response item the BPI-IS calculators accept without raising: a
mapping whose `code` field (defaulting to `None`) is hashable and whose
`value` field, when present, is a JSON number. -/
def goodResp : PyJson → Bool
  | .obj kvs =>
    pyHashable ((pyLookup kvs "code").getD .null) &&
    (match pyLookup kvs "value" with
     | some (.num _) => true
     | none => true
     | some _ => false)
  | _ => false

/-- A result whose `responses` list holds a bare number instead of a
mapping (the shape validator only checks that `responses` is a list). -/
def c10badResult : QuestionnaireResult :=
  { questionnaire_type := "BPI-IS", success := true,
    data := .obj [("responses", .arr [.num 5])],
    raw_response := { choices := none }, messages := [], error := none }

/-- Well-shaped BPI-IS responses: one interference item, one intensity
item, and one item lacking a `value` field. -/
def c10resp : List PyJson :=
  [.obj [("code", .str "BPI_Q1_1"), ("value", .num 5)],
   .obj [("code", .str "BPI_Q2_8"), ("value", .num 10)],
   .obj [("code", .str "BPI_Q1_2")]]

/-- A successful BPI-IS result carrying `c10resp`. -/
def c10result : QuestionnaireResult :=
  { questionnaire_type := "BPI-IS", success := true,
    data := .obj [("responses", .arr c10resp)],
    raw_response := { choices := none }, messages := [], error := none }

/-- A failed PCS questionnaire result after retry exhaustion. -/
def c3failedResult : QuestionnaireResult :=
  { questionnaire_type := "PCS", success := false, data := .obj [],
    raw_response := { choices := none }, messages := [],
    error := some "Could not parse JSON response: Expecting value" }

/-- A per-narrative environment in which every questionnaire exhausts its
retries. -/
def c3env : SingleNarrativeEnv :=
  { dimOutcome := .ok (.obj [("Severity", .num 7)]),
    pcsResult := c3failedResult,
    bpiResult := { c3failedResult with questionnaire_type := "BPI-IS" },
    tskResult := { c3failedResult with questionnaire_type := "TSK-11SV" } }

/-- A per-narrative outcome used by the resume witness. -/
def c1res : NarrativeEvaluationResult :=
  { narrative_id := 0, narrative_text := "t", dimension_success := true }

/-- An environment whose every narrative completes after two model calls. -/
def c1env : Int → NarrOutcome := fun _ => NarrOutcome.done 2 c1res

/-- A checkpoint left by a run interrupted after one of three
narratives. -/
def c1chk : CheckpointRec :=
  { processed_ids := [10], group_id := 7,
    progress := { total := 3, processed := 1, successful := 1, failed := 0 } }

/-- An environment whose every narrative fails before any model call. -/
def c6env : Int → NarrOutcome := fun _ => NarrOutcome.fail 0

/-- A checkpoint whose progress snapshot has non-zero successful/failed
counts. -/
def c6chk : CheckpointRec :=
  { processed_ids := [3, 7, 9], group_id := 42,
    progress := { total := 10, processed := 3, successful := 2, failed := 1 } }

/- ===== Lemmas : retry wrapper ===== -/

/-- When no attempt returns a successful result, the retry loop runs to
the end: it consumes every attempt and ends up with the last returned
result (or the UnboundLocalError when nothing was ever returned). -/
lemma retryLoopC_all_failed (attempts : List (Except String QuestionnaireResult)) :
    ∀ (prev : Option QuestionnaireResult) (n : Nat),
      (∀ r : QuestionnaireResult, Except.ok r ∈ attempts → r.success = false) →
      retryLoopC attempts prev n =
        ((match lastReturnedFrom prev attempts with
          | some r => Except.ok r
          | none => Except.error unboundLocalMsg), n + attempts.length) := by
  induction attempts with
  | nil =>
    intro prev n _
    cases prev <;> simp [retryLoopC, lastReturnedFrom]
  | cons a rest ih =>
    intro prev n h
    cases a with
    | ok r =>
      have hr : r.success = false := h r (List.mem_cons_self _ _)
      have hrest : ∀ r : QuestionnaireResult, Except.ok r ∈ rest → r.success = false :=
        fun r hm => h r (List.mem_cons_of_mem _ hm)
      have hstep : retryLoopC (Except.ok r :: rest) prev n = retryLoopC rest (some r) (n + 1) := by
        simp [retryLoopC, hr]
      rw [hstep, ih (some r) (n + 1) hrest]
      have hlast : lastReturnedFrom prev (Except.ok r :: rest) = lastReturnedFrom (some r) rest :=
        rfl
      rw [hlast]
      have : n + 1 + rest.length = n + (rest.length + 1) := by omega
      rw [this]
      rfl
    | error e =>
      have hrest : ∀ r : QuestionnaireResult, Except.ok r ∈ rest → r.success = false :=
        fun r hm => h r (List.mem_cons_of_mem _ hm)
      have hstep : retryLoopC (Except.error e :: rest) prev n = retryLoopC rest prev (n + 1) :=
        rfl
      rw [hstep, ih prev (n + 1) hrest]
      have hlast : lastReturnedFrom prev (Except.error e :: rest) = lastReturnedFrom prev rest :=
        rfl
      rw [hlast]
      have : n + 1 + rest.length = n + (rest.length + 1) := by omega
      rw [this]
      rfl

/-- Over attempts that all returned, the Python local `result` ends as the
result of the last attempt. -/
lemma lastReturnedFrom_map_ok {α : Type} (f : α → QuestionnaireResult) :
    ∀ (calls : List α) (prev : Option QuestionnaireResult) (c : α),
      calls.getLast? = some c →
      lastReturnedFrom prev (calls.map (fun x => Except.ok (f x))) = some (f c) := by
  intro calls
  induction calls with
  | nil => intro prev c h; simp at h
  | cons a rest ih =>
    intro prev c h
    cases rest with
    | nil =>
      simp at h
      subst h
      rfl
    | cons b rest2 =>
      have hlast : (b :: rest2).getLast? = some c := by
        simpa [List.getLast?] using h
      have : lastReturnedFrom prev ((a :: b :: rest2).map (fun x => Except.ok (f x)))
          = lastReturnedFrom (some (f a)) ((b :: rest2).map (fun x => Except.ok (f x))) := rfl
      rw [this, ih (some (f a)) c hlast]

/-- Unfolding of `run_questionnaire` when the call returns, the extracted
content is non-empty, and JSON decoding fails. -/
lemma run_questionnaire_parse_error (narrative questionnaire_type system_role instructions : String)
    (jsonLoads : String → Except String PyJson) (resp : ModelResponse) (s m : String)
    (hex : extractContent resp = .ok s) (hne : s ≠ "")
    (hjson : jsonLoads (extract_json_from_text s) = .error m) :
    run_questionnaire narrative questionnaire_type system_role instructions (.ok resp) jsonLoads =
      { questionnaire_type := questionnaire_type, success := false, data := .obj [],
        raw_response := resp,
        messages := buildMessages system_role instructions narrative,
        error := some ("Could not parse JSON response: " ++ m) } := by
  simp [run_questionnaire, hex, hne, parse_questionnaire_response, hjson]

/- ===== Claim C2 ===== -/

/-- C2 counterexample: a single attempt that raises (a transport
exception) makes `_run_questionnaire_with_retry` itself raise
UnboundLocalError at `return result` instead of returning a
`QuestionnaireResult` — the claimed "never raises or propagates an
exception" fails. -/
theorem c2_retry_no_exception_counterexample :
    run_questionnaire_with_retry [Except.error "ConnectionError: connection refused"] =
      Except.error unboundLocalMsg := rfl

/-- C2 (amended): when no attempt yields a successful result,
`_run_questionnaire_with_retry` returns the most recently *returned*
(failed) result if at least one attempt returned instead of raising;
when every attempt raised (or `max_retries = 0`), the trailing
`return result` raises UnboundLocalError. -/
theorem c2_retry_last_result_amended (attempts : List (Except String QuestionnaireResult))
    (hfail : ∀ r : QuestionnaireResult, Except.ok r ∈ attempts → r.success = false) :
    run_questionnaire_with_retry attempts =
      match lastReturned attempts with
      | some r => Except.ok r
      | none => Except.error unboundLocalMsg := by
  unfold run_questionnaire_with_retry run_questionnaire_with_retry_traced lastReturned
  rw [retryLoopC_all_failed attempts none 0 hfail]

/-- C2 witness: two attempts, the first returning a failed result and the
second raising; the wrapper returns the failed result of the first
attempt. -/
theorem c2_retry_last_result_amended_witness :
    run_questionnaire_with_retry [Except.ok c2failedResult, Except.error "ReadTimeout"] =
      match lastReturned [Except.ok c2failedResult, Except.error "ReadTimeout"] with
      | some r => Except.ok r
      | none => Except.error unboundLocalMsg :=
  c2_retry_last_result_amended _ (by
    intro r hr
    simp [List.mem_cons] at hr
    subst hr
    rfl)

/-- The last element of a list is a member of it. -/
lemma getLastMem {α : Type} : ∀ (l : List α) (a : α), l.getLast? = some a → a ∈ l := by
  intro l
  induction l with
  | nil => intro a h; simp at h
  | cons x rest ih =>
    intro a h
    cases rest with
    | nil => simp at h; subst h; simp
    | cons y r2 =>
      have h2 : (y :: r2).getLast? = some a := by simpa [List.getLast?] using h
      exact List.mem_cons_of_mem _ (ih a h2)

/- ===== Claim C5 ===== -/

/-- C5: against a model client whose every response carries non-empty,
non-JSON content, `_run_questionnaire_with_retry` invokes
`run_questionnaire` exactly `max_retries` times, and the returned
`QuestionnaireResult` has `success = false` with `error` carrying the
JSON-decode message of the last attempt. -/
theorem c5_retry_exhaustion (cfg : BatchConfig)
    (narrative questionnaire_type system_role instructions : String)
    (jsonLoads : String → Except String PyJson) (calls : List (Except String ModelResponse))
    (hlen : calls.length = cfg.max_retries) (hne : calls ≠ [])
    (hmal : ∀ c ∈ calls, malformedCall jsonLoads c) :
    (run_questionnaire_with_retry_model narrative questionnaire_type system_role instructions
        jsonLoads calls).2 = cfg.max_retries
    ∧ ∃ resp s m,
        calls.getLast? = some (Except.ok resp)
        ∧ extractContent resp = Except.ok s
        ∧ jsonLoads (extract_json_from_text s) = Except.error m
        ∧ (run_questionnaire_with_retry_model narrative questionnaire_type system_role instructions
              jsonLoads calls).1
            = Except.ok { questionnaire_type := questionnaire_type, success := false,
                          data := PyJson.obj [], raw_response := resp,
                          messages := buildMessages system_role instructions narrative,
                          error := some ("Could not parse JSON response: " ++ m) } := by
  have hfail : ∀ r : QuestionnaireResult,
      (Except.ok r : Except String QuestionnaireResult) ∈ calls.map (fun c =>
          (Except.ok (run_questionnaire narrative questionnaire_type system_role instructions c
            jsonLoads) : Except String QuestionnaireResult)) →
        r.success = false := by
    intro r hr
    rw [List.mem_map] at hr
    obtain ⟨c, hc, heq⟩ := hr
    obtain ⟨resp, s, m, hcok, hex, hsne, hjs⟩ := hmal c hc
    have hfc : run_questionnaire narrative questionnaire_type system_role instructions c
        jsonLoads = r := by
      exact Except.ok.inj heq
    subst hcok
    rw [run_questionnaire_parse_error narrative questionnaire_type system_role instructions
      jsonLoads resp s m hex hsne hjs] at hfc
    rw [← hfc]
  have htr := retryLoopC_all_failed
    (calls.map (fun c =>
      Except.ok (run_questionnaire narrative questionnaire_type system_role instructions c
        jsonLoads))) none 0 hfail
  obtain ⟨cl, hcl⟩ : ∃ cl, calls.getLast? = some cl := by
    cases hx : calls.getLast? with
    | some c => exact ⟨c, rfl⟩
    | none => exact absurd (List.getLast?_eq_none_iff.mp hx) hne
  obtain ⟨resp, s, m, hcok, hex, hsne, hjs⟩ := hmal cl (getLastMem _ _ hcl)
  subst hcok
  have hlastr := lastReturnedFrom_map_ok
    (fun c => run_questionnaire narrative questionnaire_type system_role instructions c jsonLoads)
    calls none (Except.ok resp) hcl
  constructor
  · show (run_questionnaire_with_retry_traced _).2 = cfg.max_retries
    unfold run_questionnaire_with_retry_traced
    rw [htr]
    simp [hlen]
  · refine ⟨resp, s, m, hcl, hex, hjs, ?_⟩
    show (run_questionnaire_with_retry_traced _).1 = _
    unfold run_questionnaire_with_retry_traced
    rw [htr]
    simp only []
    rw [show lastReturnedFrom none
        (calls.map (fun c =>
          Except.ok (run_questionnaire narrative questionnaire_type system_role instructions c
            jsonLoads)))
      = some (run_questionnaire narrative questionnaire_type system_role instructions
          (Except.ok resp) jsonLoads) from hlastr]
    rw [run_questionnaire_parse_error narrative questionnaire_type system_role instructions
      jsonLoads resp s m hex hsne hjs]

/-- C5 witness: a three-call stub always answering `"not json"` under the
default configuration (`max_retries = 3`) is consumed entirely, and the
final failed result carries the decode message of the last attempt. -/
theorem c5_retry_exhaustion_witness :
    (run_questionnaire_with_retry_model "n" "PCS" "sys" "inst" c5loads c5calls).2 =
        ({} : BatchConfig).max_retries
    ∧ ∃ resp s m,
        c5calls.getLast? = some (Except.ok resp)
        ∧ extractContent resp = Except.ok s
        ∧ c5loads (extract_json_from_text s) = Except.error m
        ∧ (run_questionnaire_with_retry_model "n" "PCS" "sys" "inst" c5loads c5calls).1
            = Except.ok { questionnaire_type := "PCS", success := false,
                          data := PyJson.obj [], raw_response := resp,
                          messages := buildMessages "sys" "inst" "n",
                          error := some ("Could not parse JSON response: " ++ m) } :=
  c5_retry_exhaustion {} "n" "PCS" "sys" "inst" c5loads c5calls rfl
    (by simp [c5calls])
    (by
      intro c hc
      have hcases : c = Except.ok c5resp := by
        simp [c5calls] at hc
        exact hc
      subst hcases
      exact ⟨c5resp, "not json", "Expecting value: line 1 column 1 (char 0)", rfl, rfl,
        by decide, rfl⟩)

/- ===== Claim C8 ===== -/

/-- C8: whenever the extracted textual content of the model response is
empty after stripping whitespace, `run_questionnaire` returns a failed
`QuestionnaireResult` with error exactly "Model returned empty response"
(its total return type shows no exception escapes). -/
theorem c8_empty_response (narrative questionnaire_type system_role instructions : String)
    (jsonLoads : String → Except String PyJson) (resp : ModelResponse)
    (hempty : extractContent resp = Except.ok "") :
    run_questionnaire narrative questionnaire_type system_role instructions
        (Except.ok resp) jsonLoads =
      { questionnaire_type := questionnaire_type, success := false, data := PyJson.obj [],
        raw_response := resp,
        messages := buildMessages system_role instructions narrative,
        error := some "Model returned empty response" } := by
  simp [run_questionnaire, hempty]

/-- C8 witness: a response whose content is whitespace only. -/
theorem c8_empty_response_witness :
    run_questionnaire "I hurt" "PCS" "role" "inst" (Except.ok c8resp) c5loads =
      { questionnaire_type := "PCS", success := false, data := PyJson.obj [],
        raw_response := c8resp,
        messages := buildMessages "role" "inst" "I hurt",
        error := some "Model returned empty response" } :=
  c8_empty_response "I hurt" "PCS" "role" "inst" c5loads c8resp rfl

/- ===== Lemmas : PCS scoring ===== -/

/-- A successful lookup returns a pair of the list. -/
lemma pyLookup_mem : ∀ (kvs : List (String × PyJson)) (k : String) (v : PyJson),
    pyLookup kvs k = some v → (k, v) ∈ kvs := by
  intro kvs
  induction kvs with
  | nil => intro k v h; simp [pyLookup] at h
  | cons kv rest ih =>
    intro k v h
    by_cases hk : kv.1 = k
    · simp only [pyLookup, hk, if_true, Option.some.injEq] at h
      subst hk
      subst h
      exact List.mem_cons_self _ _
    · simp only [pyLookup, hk, if_false] at h
      exact List.mem_cons_of_mem _ (ih k v h)

/-- With only numeric values in scope, the summing folds succeed. -/
lemma pySumWith_ok (f : PyJson → Except String Int) (g : PyJson → Int) :
    ∀ (vs : List PyJson) (acc : Int), (∀ v ∈ vs, f v = .ok (g v)) →
      pySumWith f vs acc = .ok (acc + (vs.map g).sum) := by
  intro vs
  induction vs with
  | nil => intro acc _; simp [pySumWith]
  | cons v rest ih =>
    intro acc h
    have hv := h v (List.mem_cons_self _ _)
    have hrest : ∀ x ∈ rest, f x = .ok (g x) := fun x hx => h x (List.mem_cons_of_mem _ hx)
    simp only [pySumWith, hv]
    rw [ih (acc + g v) hrest]
    simp [Int.add_assoc]

/-- The summand `int(scores.get(item, 0))` succeeds and equals its numeric value when
every stored value is a JSON number. -/
lemma pyIntItem_ok (kvs : List (String × PyJson))
    (hnum : ∀ kv ∈ kvs, isNum kv.2 = true) (item : String) :
    pyIntItem kvs item = .ok (lookupNumD kvs item) := by
  unfold pyIntItem lookupNumD
  cases hl : pyLookup kvs item with
  | none => simp [pyInt, pyNumRaw]
  | some v =>
    have hv := hnum (item, v) (pyLookup_mem _ _ _ hl)
    cases v <;> simp_all [isNum, pyInt, pyNumRaw]

/-- The helper `sum_items` over numeric values computes the sum of defaulting
lookups. -/
lemma sum_items_ok (kvs : List (String × PyJson))
    (hnum : ∀ kv ∈ kvs, isNum kv.2 = true) :
    ∀ (items : List String) (acc : Int),
      sum_items kvs items acc = .ok (acc + (items.map (lookupNumD kvs)).sum) := by
  intro items
  induction items with
  | nil => intro acc; simp [sum_items]
  | cons it its ih =>
    intro acc
    simp only [sum_items, pyIntItem_ok kvs hnum it]
    rw [ih (acc + lookupNumD kvs it)]
    simp [Int.add_assoc]

/-- Summing defaulting lookups over a permutation of the key set equals
summing the stored values (keys are unique). -/
lemma sum_lookupNumD_perm :
    ∀ (kvs : List (String × PyJson)), (kvs.map Prod.fst).Nodup →
      ∀ (ks : List String), ks.Perm (kvs.map Prod.fst) →
        (ks.map (lookupNumD kvs)).sum = (kvs.map (fun kv => pyNumRaw kv.2)).sum := by
  intro kvs
  induction kvs with
  | nil =>
    intro _ ks hperm
    have hks : ks = [] := List.Perm.eq_nil (by simpa using hperm)
    subst hks
    simp
  | cons kv rest ih =>
    intro hnd ks hperm
    have hnd2 : kv.1 ∉ rest.map Prod.fst ∧ (rest.map Prod.fst).Nodup := by
      simpa [List.nodup_cons] using hnd
    have hperm2 : ks.Perm (kv.1 :: rest.map Prod.fst) := by simpa using hperm
    have hksnd : ks.Nodup := hperm2.symm.nodup (by simpa [List.nodup_cons] using hnd)
    have hkmem : kv.1 ∈ ks := hperm2.mem_iff.mpr (List.mem_cons_self _ _)
    have hks1 : ks.Perm (kv.1 :: ks.erase kv.1) := List.perm_cons_erase hkmem
    have herase : (ks.erase kv.1).Perm (rest.map Prod.fst) :=
      (hks1.symm.trans hperm2).cons_inv
    have hsum1 : (ks.map (lookupNumD (kv :: rest))).sum
        = ((kv.1 :: ks.erase kv.1).map (lookupNumD (kv :: rest))).sum :=
      (hks1.map _).sum_eq
    have hhead : lookupNumD (kv :: rest) kv.1 = pyNumRaw kv.2 := by
      simp [lookupNumD, pyLookup]
    have htail : (ks.erase kv.1).map (lookupNumD (kv :: rest))
        = (ks.erase kv.1).map (lookupNumD rest) := by
      apply List.map_congr_left
      intro x hx
      have hxne : x ≠ kv.1 := (hksnd.mem_erase_iff.mp hx).1
      have hne2 : ¬(kv.1 = x) := fun h => hxne h.symm
      simp [lookupNumD, pyLookup, hne2]
    rw [hsum1]
    simp only [List.map_cons, List.sum_cons, hhead, htail]
    rw [ih hnd2.2 (ks.erase kv.1) herase]

/-- A key absent from the association list never resolves. -/
lemma pyLookup_eq_none (kvs : List (String × PyJson)) (k : String)
    (h : k ∉ kvs.map Prod.fst) : pyLookup kvs k = none := by
  induction kvs with
  | nil => rfl
  | cons kv rest ih =>
    have h1 : ¬(kv.1 = k) := by
      intro he
      exact h (by simp [← he])
    have h2 : k ∉ rest.map Prod.fst := fun hm => h (by simp [hm])
    simp [pyLookup, h1, ih h2]

/- ===== Claim C7 ===== -/

/-- C7: for a PCS result whose `scores` mapping has exactly the keys "1"
through "13" with numeric values, `calculate_pcs_total_score` is the
exact integer sum of all thirteen values, the three
`calculate_pcs_subscales` sums (rumination 8-11, magnification 6,7,13,
helplessness 1-5,12) add up to that same total, and items missing from
the mapping default to 0 in the subscale summands. -/
theorem c7_pcs_partition (r : QuestionnaireResult) (dkvs kvs : List (String × PyJson))
    (hd : r.data = PyJson.obj dkvs)
    (hs : pyLookup dkvs "scores" = some (PyJson.obj kvs))
    (hnd : (kvs.map Prod.fst).Nodup)
    (hkeys : (kvs.map Prod.fst).Perm pcs_item_keys)
    (hnum : ∀ kv ∈ kvs, isNum kv.2 = true) :
    (∃ total sub,
      calculate_pcs_total_score r = .ok total
      ∧ total = (kvs.map (fun kv => pyNumRaw kv.2)).sum
      ∧ calculate_pcs_subscales r = .ok sub
      ∧ sub.rumination + sub.magnification + sub.helplessness = total)
    ∧ ∀ item, item ∉ kvs.map Prod.fst → pyIntItem kvs item = .ok 0 := by
  have hscores : r.scoresGet = .ok (.obj kvs) := by
    simp [QuestionnaireResult.scoresGet, hd, hs]
  have hvals : ∀ v ∈ kvs.map Prod.snd, pyInt v = .ok (pyNumRaw v) := by
    intro v hv
    rw [List.mem_map] at hv
    obtain ⟨kv, hkv, rfl⟩ := hv
    have hn := hnum kv hkv
    cases h2 : kv.2 <;> simp_all [isNum, pyInt, pyNumRaw]
  have htotal : calculate_pcs_total_score r
      = .ok ((kvs.map (fun kv => pyNumRaw kv.2)).sum) := by
    simp only [calculate_pcs_total_score, hscores]
    rw [pySumWith_ok pyInt pyNumRaw (kvs.map Prod.snd) 0 hvals]
    simp only [List.map_map, Int.zero_add]
    rfl
  have hsub : calculate_pcs_subscales r
      = .ok { rumination := (rumination_items.map (lookupNumD kvs)).sum,
              magnification := (magnification_items.map (lookupNumD kvs)).sum,
              helplessness := (helplessness_items.map (lookupNumD kvs)).sum } := by
    simp only [calculate_pcs_subscales, hscores, sum_items_ok kvs hnum]
    simp
  have hpart : (rumination_items.map (lookupNumD kvs)).sum
      + (magnification_items.map (lookupNumD kvs)).sum
      + (helplessness_items.map (lookupNumD kvs)).sum
      = (kvs.map (fun kv => pyNumRaw kv.2)).sum := by
    have hperm3 : (rumination_items ++ magnification_items ++ helplessness_items).Perm
        pcs_item_keys := by decide
    have hchain : (rumination_items ++ magnification_items ++ helplessness_items).Perm
        (kvs.map Prod.fst) := hperm3.trans hkeys.symm
    have hsum := sum_lookupNumD_perm kvs hnd _ hchain
    rw [← hsum]
    simp only [List.map_append, List.sum_append]
  refine ⟨⟨_, _, htotal, rfl, hsub, hpart⟩, ?_⟩
  intro item him
  have hnone : pyLookup kvs item = none := pyLookup_eq_none kvs item him
  simp [pyIntItem, hnone, pyInt]

/-- C7 witness: a concrete 13-item PCS score mapping. -/
theorem c7_pcs_partition_witness :
    (∃ total sub,
      calculate_pcs_total_score c7result = .ok total
      ∧ total = (c7kvs.map (fun kv => pyNumRaw kv.2)).sum
      ∧ calculate_pcs_subscales c7result = .ok sub
      ∧ sub.rumination + sub.magnification + sub.helplessness = total)
    ∧ ∀ item, item ∉ c7kvs.map Prod.fst → pyIntItem c7kvs item = .ok 0 :=
  c7_pcs_partition c7result [("scores", PyJson.obj c7kvs)] c7kvs rfl rfl (by decide) (by decide)
    (by decide)

/- ===== Lemmas : BPI-IS scoring ===== -/

/-- Building the code-to-value dict succeeds on well-shaped responses and
stores only numeric values. -/
lemma buildScoresByCode_ok :
    ∀ (resp : List PyJson) (acc : List (PyJson × PyJson)),
      (∀ x ∈ resp, goodResp x = true) →
      (∀ kv ∈ acc, isNum kv.2 = true) →
      ∃ sbc, buildScoresByCode resp acc = .ok sbc ∧ ∀ kv ∈ sbc, isNum kv.2 = true := by
  intro resp
  induction resp with
  | nil => intro acc _ hacc; exact ⟨acc, rfl, hacc⟩
  | cons x rest ih =>
    intro acc hgood hacc
    have hx := hgood x (List.mem_cons_self _ _)
    cases x with
    | obj kvs =>
      have hx2 : pyHashable ((pyLookup kvs "code").getD .null) = true
          ∧ (match pyLookup kvs "value" with
              | some (.num _) => true
              | none => true
              | some _ => false) = true := by
        simpa [goodResp, Bool.and_eq_true] using hx
      have hval : isNum ((pyLookup kvs "value").getD (.num 0)) = true := by
        have hx3 := hx2.2
        cases hl : pyLookup kvs "value" with
        | none => simp [isNum]
        | some v =>
          rw [hl] at hx3
          cases v with
          | num n => simp [isNum]
          | null => simp at hx3
          | bool b => simp at hx3
          | str s => simp at hx3
          | arr xs => simp at hx3
          | obj o => simp at hx3
      have hacc2 : ∀ kv ∈ acc ++
          [((pyLookup kvs "code").getD .null, (pyLookup kvs "value").getD (.num 0))],
          isNum kv.2 = true := by
        intro kv hkv
        rcases List.mem_append.mp hkv with h | h
        · exact hacc kv h
        · simp only [List.mem_singleton] at h
          subst h
          exact hval
      have hrest : ∀ y ∈ rest, goodResp y = true :=
        fun y hy => hgood y (List.mem_cons_of_mem _ hy)
      simpa [buildScoresByCode, hx2.1] using ih _ hrest hacc2
    | null => simp [goodResp] at hx
    | bool b => simp [goodResp] at hx
    | num n => simp [goodResp] at hx
    | str s => simp [goodResp] at hx
    | arr xs => simp [goodResp] at hx

/-- Every dict lookup by code yields a number (present values are numbers,
absent codes default to the number 0). -/
lemma codeGetD_isNum (sbc : List (PyJson × PyJson)) (hnum : ∀ kv ∈ sbc, isNum kv.2 = true)
    (code : String) : isNum (codeGetD sbc code) = true := by
  unfold codeGetD
  cases hf : sbc.reverse.find?
      (fun kv =>
        match kv.1 with
        | .str s => s == code
        | _ => false) with
  | none => simp [isNum]
  | some kv =>
    have hmem : kv ∈ sbc := List.mem_reverse.mp (List.mem_of_find?_eq_some hf)
    simpa using hnum kv hmem

/- ===== Claim C10 ===== -/

/-- C10 counterexample: a `QuestionnaireResult` whose `responses` list
holds the bare number 5 (accepted by the shape validator) makes
`calculate_bpi_is_subscales` raise AttributeError — the function is not
total over every `QuestionnaireResult`. -/
theorem c10_bpi_total_counterexample :
    calculate_bpi_is_subscales c10badResult = Except.error "AttributeError: get" := rfl

/-- C10 (amended): for every result whose `responses` items are mappings
with hashable `code` fields and numeric-or-absent `value` fields,
`calculate_bpi_is_subscales` returns without raising (a non-mapping item
raises AttributeError and a list- or dict-valued `code` raises TypeError
at the dict-comprehension insertion); the interference average divides by
exactly the 6 fixed interference codes and the intensity average by
exactly the 4 fixed intensity codes, absent codes or missing values
contributing 0 to the sums while still counting in the denominators; the
two value lists are never empty, so the empty-list guard defaulting an
average to 0 is unreachable. -/
theorem c10_bpi_denominators_amended (r : QuestionnaireResult) (resp : List PyJson)
    (hresp : r.responsesGet = .ok resp)
    (hgood : ∀ x ∈ resp, goodResp x = true) :
    ∃ sbc,
      buildScoresByCode resp [] = .ok sbc
      ∧ (interference_codes.map (codeGetD sbc)).length = 6
      ∧ (intensity_codes.map (codeGetD sbc)).length = 4
      ∧ (interference_codes.map (codeGetD sbc)).isEmpty = false
      ∧ (intensity_codes.map (codeGetD sbc)).isEmpty = false
      ∧ calculate_bpi_is_subscales r
          = .ok { interference_avg :=
                    pyRound2 ((((interference_codes.map (codeGetD sbc)).map pyNumRaw).sum : ℚ) / 6),
                  intensity_avg :=
                    pyRound2 ((((intensity_codes.map (codeGetD sbc)).map pyNumRaw).sum : ℚ) / 4),
                  interference_total := ((interference_codes.map (codeGetD sbc)).map pyNumRaw).sum,
                  intensity_total := ((intensity_codes.map (codeGetD sbc)).map pyNumRaw).sum } := by
  obtain ⟨sbc, hbuild, hsbcnum⟩ := buildScoresByCode_ok resp [] hgood (by simp)
  have hvals : ∀ (codes : List String) (v : PyJson), v ∈ codes.map (codeGetD sbc) →
      pyNumVal v = .ok (pyNumRaw v) := by
    intro codes v hv
    rw [List.mem_map] at hv
    obtain ⟨c, _, rfl⟩ := hv
    have hn := codeGetD_isNum sbc hsbcnum c
    cases h2 : codeGetD sbc c with
    | num n => simp [pyNumVal, pyNumRaw]
    | null => rw [h2] at hn; simp [isNum] at hn
    | bool b => rw [h2] at hn; simp [isNum] at hn
    | str s => rw [h2] at hn; simp [isNum] at hn
    | arr xs => rw [h2] at hn; simp [isNum] at hn
    | obj o => rw [h2] at hn; simp [isNum] at hn
  refine ⟨sbc, hbuild, rfl, rfl, rfl, rfl, ?_⟩
  simp only [calculate_bpi_is_subscales, hresp, hbuild]
  rw [pySumWith_ok pyNumVal pyNumRaw (interference_codes.map (codeGetD sbc)) 0
    (hvals interference_codes)]
  rw [pySumWith_ok pyNumVal pyNumRaw (intensity_codes.map (codeGetD sbc)) 0
    (hvals intensity_codes)]
  simp [interference_codes, intensity_codes]

/-- C10 witness: well-shaped responses with one interference item, one
intensity item, and one item lacking a value. -/
theorem c10_bpi_denominators_amended_witness :
    ∃ sbc,
      buildScoresByCode c10resp [] = .ok sbc
      ∧ (interference_codes.map (codeGetD sbc)).length = 6
      ∧ (intensity_codes.map (codeGetD sbc)).length = 4
      ∧ (interference_codes.map (codeGetD sbc)).isEmpty = false
      ∧ (intensity_codes.map (codeGetD sbc)).isEmpty = false
      ∧ calculate_bpi_is_subscales c10result
          = .ok { interference_avg :=
                    pyRound2 ((((interference_codes.map (codeGetD sbc)).map pyNumRaw).sum : ℚ) / 6),
                  intensity_avg :=
                    pyRound2 ((((intensity_codes.map (codeGetD sbc)).map pyNumRaw).sum : ℚ) / 4),
                  interference_total := ((interference_codes.map (codeGetD sbc)).map pyNumRaw).sum,
                  intensity_total := ((intensity_codes.map (codeGetD sbc)).map pyNumRaw).sum } :=
  c10_bpi_denominators_amended c10result c10resp rfl (by decide)

/- ===== Lemmas : persistence of questionnaire results ===== -/

/-- Helper `_save_questionnaire_result` on an unsuccessful result returns `None`
without issuing any database write. -/
lemma save_questionnaire_result_failed (result : QuestionnaireResult)
    (questionnaire_type : String) (questionnaire_id : Int)
    (h : result.success = false) :
    save_questionnaire_result result questionnaire_type questionnaire_id = .ok (none, []) := by
  simp [save_questionnaire_result, h]

/-- A questionnaire stage whose result failed: the stage completes, keeps
the failed result in memory, and writes nothing. -/
lemma runStage_failed (included : Bool) (result : QuestionnaireResult)
    (questionnaire_type : String) (questionnaire_id : Int)
    (h : result.success = false) :
    runStage included result questionnaire_type questionnaire_id
      = .ok ((if included then some result else none), none, []) := by
  cases included <;>
    simp [runStage, save_questionnaire_result_failed _ _ _ h]

/- ===== Claim C3 ===== -/

/-- C3 counterexample: `_save_questionnaire_result` applied to the final
failed questionnaire result returns `None` with an empty write list — no
write is issued for a failed result, contradicting "a write is issued
for the failed questionnaire result". -/
theorem c3_failed_result_write_counterexample :
    save_questionnaire_result c3failedResult "PCS" 1 = Except.ok (none, []) := rfl

/-- C3 (amended): when a questionnaire exhausts its retries, the final
failed result is returned and carried on the `NarrativeEvaluationResult`
and the batch proceeds to the following stages without aborting, but the
persistence helper issues no write for it (it returns `None` before any
database call), so only the dimension-stage writes remain. -/
theorem c3_failed_result_amended (cfg : BatchConfig) (env : SingleNarrativeEnv)
    (narrative_id : Int) (narrative_text : String) (experiment_id : Int)
    (hpcs : env.pcsResult.success = false) (hbpi : env.bpiResult.success = false)
    (htsk : env.tskResult.success = false) :
    ∃ res writes,
      process_single_narrative cfg env narrative_id narrative_text experiment_id
          = .ok (res, writes)
      ∧ res.pcs_result = (if cfg.include_pcs then some env.pcsResult else none)
      ∧ res.bpi_is_result = (if cfg.include_bpi_is then some env.bpiResult else none)
      ∧ res.tsk_11sv_result = (if cfg.include_tsk_11sv then some env.tskResult else none)
      ∧ res.pcs_questionnaire_id = none
      ∧ res.bpi_is_questionnaire_id = none
      ∧ res.tsk_11sv_questionnaire_id = none
      ∧ (∀ q, DbWrite.questionnaireRow q ∉ writes)
      ∧ (∀ rt, rt ≠ "dimensions" → DbWrite.evaluationRow rt ∉ writes) := by
  have hps := runStage_failed cfg.include_pcs env.pcsResult "PCS" 1 hpcs
  have hbs := runStage_failed cfg.include_bpi_is env.bpiResult "BPI-IS" 2 hbpi
  have hts := runStage_failed cfg.include_tsk_11sv env.tskResult "TSK-11SV" 3 htsk
  by_cases hd : cfg.include_dimensions = true
  · cases hdo : env.dimOutcome with
    | ok dim =>
      simp only [process_single_narrative, hd, hdo, hps, hbs, hts, if_true]
      refine ⟨_, _, rfl, rfl, rfl, rfl, rfl, rfl, rfl, ?_, ?_⟩
      · intro q
        simp
      · intro rt hrt
        simp [hrt]
    | error e =>
      simp only [process_single_narrative, hd, hdo, hps, hbs, hts, if_true]
      refine ⟨_, _, rfl, rfl, rfl, rfl, rfl, rfl, rfl, ?_, ?_⟩
      · intro q
        simp
      · intro rt _
        simp
  · have hd2 : cfg.include_dimensions = false := by
      revert hd
      cases cfg.include_dimensions <;> simp
    simp only [process_single_narrative, hd2, Bool.false_eq_true, if_false, hps, hbs, hts]
    refine ⟨_, _, rfl, rfl, rfl, rfl, rfl, rfl, rfl, ?_, ?_⟩
    · intro q
      simp
    · intro rt _
      simp

/-- C3 witness: all three questionnaires fail under the default
configuration; the batch runs every stage, keeps the failed results, and
issues only the dimension writes. -/
theorem c3_failed_result_amended_witness :
    ∃ res writes,
      process_single_narrative {} c3env 11 "I wake up with constant pain" 21
          = .ok (res, writes)
      ∧ res.pcs_result = (if ({} : BatchConfig).include_pcs then some c3env.pcsResult else none)
      ∧ res.bpi_is_result =
          (if ({} : BatchConfig).include_bpi_is then some c3env.bpiResult else none)
      ∧ res.tsk_11sv_result =
          (if ({} : BatchConfig).include_tsk_11sv then some c3env.tskResult else none)
      ∧ res.pcs_questionnaire_id = none
      ∧ res.bpi_is_questionnaire_id = none
      ∧ res.tsk_11sv_questionnaire_id = none
      ∧ (∀ q, DbWrite.questionnaireRow q ∉ writes)
      ∧ (∀ rt, rt ≠ "dimensions" → DbWrite.evaluationRow rt ∉ writes) :=
  c3_failed_result_amended {} c3env 11 "I wake up with constant pain" 21 rfl rfl rfl

/- ===== Claim C4 ===== -/

/-- C4: after each processed narrative, `processed` increments and exactly
one of `successful` / `failed` increments; `successful` increments if and
only if the dimension evaluation succeeded or the PCS result exists with
`success = True` (the BPI-IS and TSK-11SV outcomes are ignored: changing
them never changes the update); and this update is exactly what the
`run_batch` loop body applies to a completed narrative. -/
theorem c4_success_counting (p : BatchProgress) (res : NarrativeEvaluationResult)
    (bpi tsk : Option QuestionnaireResult) (bq tq : Option Int)
    (ctx : BatchCtx) (st : BatchState) (idx : Int) :
    (updateProgressAfterNarrative p res).processed = p.processed + 1
    ∧ (updateProgressAfterNarrative p res).successful + (updateProgressAfterNarrative p res).failed
        = p.successful + p.failed + 1
    ∧ ((updateProgressAfterNarrative p res).successful = p.successful + 1
        ↔ (res.dimension_success = true ∨ ∃ q, res.pcs_result = some q ∧ q.success = true))
    ∧ ((updateProgressAfterNarrative p res).failed = p.failed + 1
        ↔ ¬(res.dimension_success = true ∨ ∃ q, res.pcs_result = some q ∧ q.success = true))
    ∧ updateProgressAfterNarrative p
        { res with bpi_is_result := bpi, tsk_11sv_result := tsk,
                   bpi_is_questionnaire_id := bq, tsk_11sv_questionnaire_id := tq }
        = updateProgressAfterNarrative p res
    ∧ (batchStep ctx st idx).progress =
        (if idx ∈ st.processed_ids then st.progress
         else
           match ctx.env idx with
           | .fail _ => updateProgressAfterException
               { st.progress with current_narrative_id := some idx }
           | .done _ r => updateProgressAfterNarrative
               { st.progress with current_narrative_id := some idx } r) := by
  have hcond : narrativeSucceeded res = true
      ↔ (res.dimension_success = true ∨ ∃ q, res.pcs_result = some q ∧ q.success = true) := by
    unfold narrativeSucceeded
    cases hp : res.pcs_result with
    | none => simp
    | some q => simp
  refine ⟨?_, ?_, ?_, ?_, rfl, ?_⟩
  · by_cases hs : narrativeSucceeded res = true <;>
      simp [updateProgressAfterNarrative, hs]
  · by_cases hs : narrativeSucceeded res = true <;>
      simp [updateProgressAfterNarrative, hs] <;> omega
  · rw [← hcond]
    by_cases hs : narrativeSucceeded res = true <;>
      simp [updateProgressAfterNarrative, hs]
  · rw [← hcond]
    by_cases hs : narrativeSucceeded res = true <;>
      simp [updateProgressAfterNarrative, hs]
  · by_cases hm : idx ∈ st.processed_ids
    · simp [batchStep, hm]
    · simp only [batchStep, hm, if_false]
      cases ctx.env idx with
      | fail n => simp
      | done n r => simp

/- ===== Claim C9 ===== -/

/-- C9: for every configured checkpoint file, saving a checkpoint with
`processed_ids = [3, 7, 9]` and `group_id = 42` and loading it back
returns exactly the record that was saved — the same `processed_ids`
list, `group_id`, timestamp and nested progress snapshot; serialization
followed by deserialization is the identity on the checkpoint record. -/
theorem c9_checkpoint_roundtrip (f timestamp : String) (progress : BatchProgress)
    (file : Option PyJson) :
    load_checkpoint (some f) (save_checkpoint (some f) progress [3, 7, 9] 42 timestamp file)
        = checkpointJson progress [3, 7, 9] 42 timestamp
    ∧ pyGet (load_checkpoint (some f)
          (save_checkpoint (some f) progress [3, 7, 9] 42 timestamp file)) "processed_ids"
        = some (.arr [.num 3, .num 7, .num 9])
    ∧ pyGet (load_checkpoint (some f)
          (save_checkpoint (some f) progress [3, 7, 9] 42 timestamp file)) "group_id"
        = some (.num 42)
    ∧ pyGet (load_checkpoint (some f)
          (save_checkpoint (some f) progress [3, 7, 9] 42 timestamp file)) "timestamp"
        = some (.str timestamp)
    ∧ pyGet (load_checkpoint (some f)
          (save_checkpoint (some f) progress [3, 7, 9] 42 timestamp file)) "progress"
        = some (.obj [("total", .num (progress.total : Int)),
                      ("processed", .num (progress.processed : Int)),
                      ("successful", .num (progress.successful : Int)),
                      ("failed", .num (progress.failed : Int))]) :=
  ⟨rfl, rfl, rfl, rfl, rfl⟩

/- ===== Lemmas : the run_batch loop ===== -/

/-- The increment `processed += 1` always happens in the per-narrative update. -/
lemma updateProgressAfterNarrative_processed (p : BatchProgress)
    (res : NarrativeEvaluationResult) :
    (updateProgressAfterNarrative p res).processed = p.processed + 1 := by
  unfold updateProgressAfterNarrative
  by_cases hs : narrativeSucceeded res = true <;> simp [hs]

/-- Exactly one of `successful` / `failed` increments in the per-narrative
update. -/
lemma updateProgressAfterNarrative_sum (p : BatchProgress)
    (res : NarrativeEvaluationResult) :
    (updateProgressAfterNarrative p res).successful + (updateProgressAfterNarrative p res).failed
      = p.successful + p.failed + 1 := by
  unfold updateProgressAfterNarrative
  by_cases hs : narrativeSucceeded res = true <;> simp [hs] <;> omega

/-- One loop iteration appends the key exactly when it was not skipped. -/
lemma batchStep_processed_ids (ctx : BatchCtx) (st : BatchState) (idx : Int) :
    (batchStep ctx st idx).processed_ids =
      if idx ∈ st.processed_ids then st.processed_ids else st.processed_ids ++ [idx] := by
  by_cases hm : idx ∈ st.processed_ids
  · simp [batchStep, hm]
  · simp only [batchStep, hm, if_false]
    cases ctx.env idx <;> simp

/-- One loop iteration never touches the recorded initial progress. -/
lemma batchStep_initProgress (ctx : BatchCtx) (st : BatchState) (idx : Int) :
    (batchStep ctx st idx).initProgress = st.initProgress := by
  by_cases hm : idx ∈ st.processed_ids
  · simp [batchStep, hm]
  · simp only [batchStep, hm, if_false]
    cases ctx.env idx <;> simp

/-- The model-client calls one iteration emits, all tagged with its key. -/
lemma batchStep_events (ctx : BatchCtx) (st : BatchState) (idx : Int) :
    (batchStep ctx st idx).events =
      if idx ∈ st.processed_ids then st.events
      else st.events ++ List.replicate
        (match ctx.env idx with
         | .fail n => n
         | .done n _ => n) (BatchEvent.modelCall idx) := by
  by_cases hm : idx ∈ st.processed_ids
  · simp [batchStep, hm]
  · simp only [batchStep, hm, if_false]
    cases ctx.env idx <;> simp

/-- Progress-counter effect of one non-skipped iteration. -/
lemma batchStep_counts (ctx : BatchCtx) (st : BatchState) (idx : Int)
    (h : idx ∉ st.processed_ids) :
    (batchStep ctx st idx).progress.processed = st.progress.processed + 1
    ∧ (batchStep ctx st idx).progress.successful + (batchStep ctx st idx).progress.failed
        = st.progress.successful + st.progress.failed + 1 := by
  simp only [batchStep, h, if_false]
  cases ctx.env idx with
  | fail n =>
    constructor
    · simp [updateProgressAfterException]
    · simp [updateProgressAfterException]
      omega
  | done n r =>
    constructor
    · simpa using updateProgressAfterNarrative_processed
        { st.progress with current_narrative_id := some idx } r
    · simpa using updateProgressAfterNarrative_sum
        { st.progress with current_narrative_id := some idx } r

/-- The loop never modifies the recorded initial progress. -/
lemma runBatchLoop_initProgress (ctx : BatchCtx) :
    ∀ (rows : List Int) (st : BatchState),
      (runBatchLoop ctx rows st).initProgress = st.initProgress := by
  intro rows
  induction rows with
  | nil => intro st; rfl
  | cons r rest ih =>
    intro st
    show (runBatchLoop ctx rest (batchStep ctx st r)).initProgress = _
    rw [ih, batchStep_initProgress]

/-- Over distinct keys, the loop appends exactly the not-yet-processed keys
in order. -/
lemma runBatchLoop_processed_ids (ctx : BatchCtx) :
    ∀ (rows : List Int) (st : BatchState), rows.Nodup →
      (runBatchLoop ctx rows st).processed_ids
        = st.processed_ids ++ rows.filter (fun i => decide (i ∉ st.processed_ids)) := by
  intro rows
  induction rows with
  | nil => intro st _; simp [runBatchLoop]
  | cons r rest ih =>
    intro st hnd
    have hnd2 : r ∉ rest ∧ rest.Nodup := by simpa [List.nodup_cons] using hnd
    show (runBatchLoop ctx rest (batchStep ctx st r)).processed_ids = _
    by_cases hm : r ∈ st.processed_ids
    · have hstep : batchStep ctx st r = st := by simp [batchStep, hm]
      rw [hstep, ih st hnd2.2]
      congr 1
      simp [List.filter_cons, hm]
    · have hpid : (batchStep ctx st r).processed_ids = st.processed_ids ++ [r] := by
        rw [batchStep_processed_ids]
        simp [hm]
      rw [ih _ hnd2.2, hpid]
      have hfilter : rest.filter (fun i => decide (i ∉ st.processed_ids ++ [r]))
          = rest.filter (fun i => decide (i ∉ st.processed_ids)) := by
        apply List.filter_congr
        intro x hx
        have hxr : x ≠ r := fun hxeq => hnd2.1 (hxeq ▸ hx)
        simp [List.mem_append, hxr]
      rw [hfilter]
      simp [List.filter_cons, hm, List.append_assoc]

/-- Every model call of the loop belongs to a key that was not yet in the
processed set when the loop started. -/
lemma runBatchLoop_events (ctx : BatchCtx) :
    ∀ (rows : List Int) (st : BatchState) (i : Int),
      BatchEvent.modelCall i ∈ (runBatchLoop ctx rows st).events →
      BatchEvent.modelCall i ∈ st.events ∨ i ∉ st.processed_ids := by
  intro rows
  induction rows with
  | nil => intro st i h; exact Or.inl h
  | cons r rest ih =>
    intro st i h
    have h2 := ih (batchStep ctx st r) i h
    rcases h2 with h2 | h2
    · rw [batchStep_events] at h2
      by_cases hm : r ∈ st.processed_ids
      · rw [if_pos hm] at h2
        exact Or.inl h2
      · rw [if_neg hm] at h2
        rcases List.mem_append.mp h2 with h3 | h3
        · exact Or.inl h3
        · have h4 := List.eq_of_mem_replicate h3
          have hir : i = r := by
            simpa using h4
          subst hir
          exact Or.inr hm
    · rw [batchStep_processed_ids] at h2
      by_cases hm : r ∈ st.processed_ids
      · rw [if_pos hm] at h2
        exact Or.inr h2
      · rw [if_neg hm] at h2
        exact Or.inr (fun hmem => h2 (List.mem_append.mpr (Or.inl hmem)))

/-- Counter effect of the whole loop over distinct keys: `processed` grows
by the number of narratives actually run, and `successful + failed` grows
by the same amount. -/
lemma runBatchLoop_counts (ctx : BatchCtx) :
    ∀ (rows : List Int) (st : BatchState), rows.Nodup →
      (runBatchLoop ctx rows st).progress.processed
          = st.progress.processed
            + (rows.filter (fun i => decide (i ∉ st.processed_ids))).length
      ∧ (runBatchLoop ctx rows st).progress.successful
            + (runBatchLoop ctx rows st).progress.failed
          = st.progress.successful + st.progress.failed
            + (rows.filter (fun i => decide (i ∉ st.processed_ids))).length := by
  intro rows
  induction rows with
  | nil => intro st _; simp [runBatchLoop]
  | cons r rest ih =>
    intro st hnd
    have hnd2 : r ∉ rest ∧ rest.Nodup := by simpa [List.nodup_cons] using hnd
    have hshow : runBatchLoop ctx (r :: rest) st = runBatchLoop ctx rest (batchStep ctx st r) :=
      rfl
    rw [hshow]
    by_cases hm : r ∈ st.processed_ids
    · have hstep : batchStep ctx st r = st := by simp [batchStep, hm]
      rw [hstep]
      have hih := ih st hnd2.2
      have hfilter : ((r :: rest).filter (fun i => decide (i ∉ st.processed_ids))).length
          = (rest.filter (fun i => decide (i ∉ st.processed_ids))).length := by
        simp [List.filter_cons, hm]
      rw [hfilter]
      exact hih
    · have hpid : (batchStep ctx st r).processed_ids = st.processed_ids ++ [r] := by
        rw [batchStep_processed_ids]
        simp [hm]
      have hcnt := batchStep_counts ctx st r hm
      have hih := ih (batchStep ctx st r) hnd2.2
      have hfilter : rest.filter (fun i => decide (i ∉ (batchStep ctx st r).processed_ids))
          = rest.filter (fun i => decide (i ∉ st.processed_ids)) := by
        rw [hpid]
        apply List.filter_congr
        intro x hx
        have hxr : x ≠ r := fun hxeq => hnd2.1 (hxeq ▸ hx)
        simp [List.mem_append, hxr]
      rw [hfilter] at hih
      have hflen : ((r :: rest).filter (fun i => decide (i ∉ st.processed_ids))).length
          = (rest.filter (fun i => decide (i ∉ st.processed_ids))).length + 1 := by
        simp [List.filter_cons, hm]
      rw [hflen]
      constructor
      · rw [hih.1, hcnt.1]
        omega
      · rw [hih.2, hcnt.2]
        omega

/-- Removing the `k` already-processed keys from `N` distinct keys leaves
exactly `N - k` keys. -/
lemma filter_not_mem_length (rows K : List Int) (hrd : rows.Nodup) (hknd : K.Nodup)
    (hsub : ∀ i ∈ K, i ∈ rows) :
    (rows.filter (fun i => decide (i ∉ K))).length = rows.length - K.length := by
  have hperm : (rows.filter (fun i => decide (i ∈ K))).Perm K := by
    rw [List.perm_ext_iff_of_nodup (hrd.filter _) hknd]
    intro a
    constructor
    · intro h
      have := (List.mem_filter.mp h).2
      simpa using this
    · intro h
      exact List.mem_filter.mpr ⟨hsub a h, by simpa⟩
  have hlen : (rows.filter (fun i => decide (i ∈ K))).length = K.length := hperm.length_eq
  have hsplit := (List.filter_append_perm (fun i => decide (i ∈ K)) rows).length_eq
  rw [List.length_append] at hsplit
  have hcongr : rows.filter (fun i => !decide (i ∈ K)) = rows.filter (fun i => decide (i ∉ K)) := by
    apply List.filter_congr
    intro x _
    simp [decide_not]
  rw [hcongr] at hsplit
  omega

/-- Combined facts about a resumed loop started from a checkpointed
processed set `K` with no events yet. -/
lemma runBatchLoop_resume_facts (ctx : BatchCtx) (rows K : List Int) (st0 : BatchState)
    (hpids : st0.processed_ids = K) (hev0 : st0.events = [])
    (hrows : rows.Nodup) (hknd : K.Nodup) (hsub : ∀ i ∈ K, i ∈ rows) :
    (∀ i ∈ K, BatchEvent.modelCall i ∉ (runBatchLoop ctx rows st0).events)
    ∧ (runBatchLoop ctx rows st0).processed_ids = K ++ rows.filter (fun i => decide (i ∉ K))
    ∧ (rows.filter (fun i => decide (i ∉ K))).length = rows.length - K.length
    ∧ (runBatchLoop ctx rows st0).progress.processed
        = st0.progress.processed + (rows.length - K.length)
    ∧ (runBatchLoop ctx rows st0).progress.successful
          + (runBatchLoop ctx rows st0).progress.failed
        = st0.progress.successful + st0.progress.failed + (rows.length - K.length) := by
  subst hpids
  have hflen := filter_not_mem_length rows st0.processed_ids hrows hknd hsub
  have hcnt := runBatchLoop_counts ctx rows st0 hrows
  refine ⟨?_, runBatchLoop_processed_ids ctx rows st0 hrows, hflen, ?_, ?_⟩
  · intro i hi hmem
    rcases runBatchLoop_events ctx rows st0 i hmem with h | h
    · rw [hev0] at h
      exact List.not_mem_nil _ h
    · exact h hi
  · rw [hcnt.1, hflen]
  · rw [hcnt.2, hflen]

/- ===== Claim C1 ===== -/

/-- C1: resuming `run_batch` (or `run_batch_with_existing_narratives`)
with a valid checkpoint holding `k < N` processed keys runs exactly the
remaining `N - k` narratives — the final processed set is the checkpoint
set followed by exactly the not-yet-processed keys, and the progress
counter advances by `N - k` — and the model client is never invoked for
any key already present in `processed_ids`. -/
theorem c1_idempotent_resume (cfg : BatchConfig) (env env2 : Int → NarrOutcome)
    (rows : List Int) (c : CheckpointRec) (fresh_group_id : Int) (timestamp : String)
    (run_number : Nat)
    (hrows : rows.Nodup) (hknd : c.processed_ids.Nodup)
    (hsub : ∀ i ∈ c.processed_ids, i ∈ rows)
    (hlt : c.processed_ids.length < rows.length) :
    (∀ i ∈ c.processed_ids, BatchEvent.modelCall i
        ∉ (run_batch cfg env rows true (some c) fresh_group_id timestamp).events)
    ∧ (run_batch cfg env rows true (some c) fresh_group_id timestamp).processed_ids
        = c.processed_ids ++ rows.filter (fun i => decide (i ∉ c.processed_ids))
    ∧ (rows.filter (fun i => decide (i ∉ c.processed_ids))).length
        = rows.length - c.processed_ids.length
    ∧ (run_batch cfg env rows true (some c) fresh_group_id timestamp).progress.processed
        = c.processed_ids.length + (rows.length - c.processed_ids.length)
    ∧ (∀ i ∈ c.processed_ids, BatchEvent.modelCall i
        ∉ (run_batch_with_existing_narratives cfg env2 rows run_number true (some c)
            fresh_group_id timestamp).events)
    ∧ (run_batch_with_existing_narratives cfg env2 rows run_number true (some c)
          fresh_group_id timestamp).processed_ids
        = c.processed_ids ++ rows.filter (fun i => decide (i ∉ c.processed_ids)) := by
  have hgen : ∀ envx : Int → NarrOutcome,
      (∀ i ∈ c.processed_ids, BatchEvent.modelCall i
          ∉ (run_batch cfg envx rows true (some c) fresh_group_id timestamp).events)
      ∧ (run_batch cfg envx rows true (some c) fresh_group_id timestamp).processed_ids
          = c.processed_ids ++ rows.filter (fun i => decide (i ∉ c.processed_ids))
      ∧ (run_batch cfg envx rows true (some c) fresh_group_id timestamp).progress.processed
          = c.processed_ids.length + (rows.length - c.processed_ids.length) := by
    intro envx
    obtain ⟨h1, h2, h3, h4, h5⟩ := runBatchLoop_resume_facts
      (BatchCtx.mk cfg envx c.group_id timestamp)
      rows c.processed_ids
      (BatchState.mk
        (BatchProgress.mk rows.length c.processed_ids.length 0 0 none)
        (BatchProgress.mk rows.length c.processed_ids.length 0 0 none)
        c.processed_ids [] [] none)
      rfl rfl hrows hknd hsub
    exact ⟨h1, h2, h4⟩
  obtain ⟨ha1, ha2, ha3⟩ := hgen env
  obtain ⟨hb1, hb2, _⟩ := hgen env2
  exact ⟨ha1, ha2, filter_not_mem_length rows c.processed_ids hrows hknd hsub, ha3, hb1, hb2⟩

/-- C1 witness: a batch of three keys resumed after one was checkpointed:
the two remaining keys are processed and no model call carries the
checkpointed key. -/
theorem c1_idempotent_resume_witness :
    (∀ i ∈ c1chk.processed_ids, BatchEvent.modelCall i
        ∉ (run_batch {} c1env [10, 11, 12] true (some c1chk) 7 "ts").events)
    ∧ (run_batch {} c1env [10, 11, 12] true (some c1chk) 7 "ts").processed_ids
        = c1chk.processed_ids
          ++ [10, 11, 12].filter (fun i => decide (i ∉ c1chk.processed_ids))
    ∧ ([10, 11, 12].filter (fun i => decide (i ∉ c1chk.processed_ids))).length
        = [10, 11, 12].length - c1chk.processed_ids.length
    ∧ (run_batch {} c1env [10, 11, 12] true (some c1chk) 7 "ts").progress.processed
        = c1chk.processed_ids.length + ([10, 11, 12].length - c1chk.processed_ids.length)
    ∧ (∀ i ∈ c1chk.processed_ids, BatchEvent.modelCall i
        ∉ (run_batch_with_existing_narratives {} c1env [10, 11, 12] 2 true (some c1chk) 7
            "ts").events)
    ∧ (run_batch_with_existing_narratives {} c1env [10, 11, 12] 2 true (some c1chk) 7
          "ts").processed_ids
        = c1chk.processed_ids
          ++ [10, 11, 12].filter (fun i => decide (i ∉ c1chk.processed_ids)) :=
  c1_idempotent_resume {} c1env c1env [10, 11, 12] c1chk 7 "ts" 2 (by decide) (by decide)
    (by decide) (by decide)

/- ===== Claim C6 ===== -/

/-- C6 counterexample: resuming from a checkpoint whose progress snapshot
records 2 successful and 1 failed narratives, `run_batch` initializes the
`BatchProgress` of the run with `successful = 0` and `failed = 0` — the
checkpointed successful/failed counts are not restored. -/
theorem c6_resume_progress_counterexample :
    (run_batch {} c6env [1, 2] true (some c6chk) 42 "ts").initProgress.successful = 0
    ∧ (run_batch {} c6env [1, 2] true (some c6chk) 42 "ts").initProgress.failed = 0
    ∧ c6chk.progress.successful = 2
    ∧ c6chk.progress.failed = 1 :=
  ⟨rfl, rfl, rfl, rfl⟩

/-- C6 (amended): on resume with a valid checkpoint, the resumed run has a
`BatchProgress` starts from `processed = len(processed_ids)` but restarts
`successful` and `failed` from zero (the checkpointed progress snapshot is
written but never read back); subsequent increments continue from those
initial values: the final `processed` is `len(processed_ids)` plus the
number of remaining narratives, and `successful + failed` counts only the
narratives of the resumed run. -/
theorem c6_resume_progress_amended (cfg : BatchConfig) (env : Int → NarrOutcome)
    (rows : List Int) (c : CheckpointRec) (fresh_group_id : Int) (timestamp : String)
    (hrows : rows.Nodup) (hknd : c.processed_ids.Nodup)
    (hsub : ∀ i ∈ c.processed_ids, i ∈ rows) :
    (run_batch cfg env rows true (some c) fresh_group_id timestamp).initProgress
        = BatchProgress.mk rows.length c.processed_ids.length 0 0 none
    ∧ (run_batch cfg env rows true (some c) fresh_group_id timestamp).progress.processed
        = c.processed_ids.length + (rows.length - c.processed_ids.length)
    ∧ (run_batch cfg env rows true (some c) fresh_group_id timestamp).progress.successful
          + (run_batch cfg env rows true (some c) fresh_group_id timestamp).progress.failed
        = rows.length - c.processed_ids.length := by
  obtain ⟨h1, h2, h3, h4, h5⟩ := runBatchLoop_resume_facts
    (BatchCtx.mk cfg env c.group_id timestamp)
    rows c.processed_ids
    (BatchState.mk
      (BatchProgress.mk rows.length c.processed_ids.length 0 0 none)
      (BatchProgress.mk rows.length c.processed_ids.length 0 0 none)
      c.processed_ids [] [] none)
    rfl rfl hrows hknd hsub
  refine ⟨?_, h4, ?_⟩
  · exact runBatchLoop_initProgress
      (BatchCtx.mk cfg env c.group_id timestamp) rows
      (BatchState.mk
        (BatchProgress.mk rows.length c.processed_ids.length 0 0 none)
        (BatchProgress.mk rows.length c.processed_ids.length 0 0 none)
        c.processed_ids [] [] none)
  · have h5x := h5
    simp only [Nat.zero_add] at h5x
    exact h5x

/-- C6 witness: five keys, three already checkpointed. -/
theorem c6_resume_progress_amended_witness :
    (run_batch {} c6env [3, 7, 9, 1, 2] true (some c6chk) 42 "ts").initProgress
        = BatchProgress.mk ([3, 7, 9, 1, 2] : List Int).length c6chk.processed_ids.length 0 0 none
    ∧ (run_batch {} c6env [3, 7, 9, 1, 2] true (some c6chk) 42 "ts").progress.processed
        = c6chk.processed_ids.length
          + (([3, 7, 9, 1, 2] : List Int).length - c6chk.processed_ids.length)
    ∧ (run_batch {} c6env [3, 7, 9, 1, 2] true (some c6chk) 42 "ts").progress.successful
          + (run_batch {} c6env [3, 7, 9, 1, 2] true (some c6chk) 42 "ts").progress.failed
        = ([3, 7, 9, 1, 2] : List Int).length - c6chk.processed_ids.length :=
  c6_resume_progress_amended {} c6env [3, 7, 9, 1, 2] c6chk 42 "ts" (by decide) (by decide)
    (by decide)
